import Mathlib

/-!
# go-ckan: a typed client for the CKAN action API

A shallow embedding of `ckan.go` and the properties of its specification.

Modelling conventions:

* A Go string is a Lean string; a Go `int` is an `Int`; a Go `error` is identified
  with its message; a Go slice or map held in a struct field is a list.
* A Go return pair `(T, error)` is an `Outcome`, a record holding both components, so
  that the value that accompanies an error remains visible.
* A Go `map[string]string` that is ranged over is given by the sequence of its entries
  in the order in which the loop visits them; the order is arbitrary.
* `net/http`, `io` and the decoding side of `encoding/json` are external
  collaborators.  They enter as an environment `Env`, and every call a method makes to
  them (`http.Get`, `http.Post`, `io.ReadAll`, `json.Unmarshal`) is recorded, in
  program order, in the log of the outcome.  A request is one such call of `http.Get`
  or `http.Post`; closing the response body has no effect on the outcome and is not
  recorded.
* `strings.Join`, `strconv.Itoa`, `url.Values`, `url.QueryEscape` and `json.Marshal` on
  a string map are modelled by executable definitions.
-/

namespace Ckan

/-! ## Go runtime values -/

/-- Go error values, identified with the text returned by their Error method. -/
abbrev GoError := String

/-- A Go float64, kept as its IEEE-754 bit pattern; no arithmetic is performed on it. -/
structure Float64 where
  bits : Nat := 0

/-- A Go interface value holding decoded JSON; null is the zero value. -/
inductive JsonValue where
  | null
  | bool (b : Bool)
  | number (f : Float64)
  | string (s : String)
  | array (xs : List JsonValue)
  | object (kvs : List (String × JsonValue))

/-! ## Data model (the response types of ckan.go)

A Go slice or map field is a list, nil being the empty list; the zero value of every
struct is the record written with empty braces, as in Go. -/

/-- Source: type Tag. -/
structure Tag where
  Name : String := ""

/-- Source: type Extra. -/
structure Extra where
  Key : String := ""
  Value : JsonValue := JsonValue.null

/-- Source: type Resource. -/
structure Resource where
  CacheURL : String := ""
  Format : String := ""
  MetadataModified : String := ""
  MimetypeInner : String := ""
  NoRealName : Bool := false
  Position : Int := 0
  Size : Int := 0
  State : String := ""
  URL : String := ""
  Created : String := ""
  Mimetype : String := ""
  CacheLastUpdated : String := ""
  Hash : String := ""
  ResourceType : String := ""
  Description : String := ""
  ID : String := ""
  LastModified : String := ""
  Name : String := ""
  PackageID : String := ""
  URLType : String := ""
  DescribedBy : String := ""
  DescribedByType : String := ""

/-- Source: type Organization. -/
structure Organization where
  ID : String := ""
  Title : String := ""
  IsOrganization : Bool := false
  ApprovalStatus : String := ""
  State : String := ""
  Name : String := ""
  Type_ : String := ""
  Description : String := ""
  ImageURL : String := ""
  Created : String := ""

/-- Source: type Group. -/
structure Group where
  Description : String := ""
  Created : String := ""
  Title : String := ""
  Name : String := ""
  IsOrg : Bool := false
  State : String := ""
  ImageURL : String := ""
  Type_ : String := ""
  ID : String := ""

/-- Source: type Activity. -/
structure Activity where
  ActivityID : String := ""
  Timestamp : String := ""
  UserID : String := ""
  ObjectID : String := ""
  RevisionID : String := ""
  ActivityType : String := ""
  Data : List (String × JsonValue) := []

/-- Source: type Package. -/
structure Package where
  Maintainer : String := ""
  OwnerOrg : String := ""
  Groups : List JsonValue := []
  CreatorUserID : String := ""
  MetadataModified : String := ""
  State : String := ""
  Tags : List Tag := []
  RelationshipsAsSubject : List JsonValue := []
  Name : String := ""
  Private : Bool := false
  Version : String := ""
  LicenseID : String := ""
  LicenseTitle : String := ""
  MetadataCreated : String := ""
  NumTags : Int := 0
  Organization : Organization := {}
  Type_ : String := ""
  ID : String := ""
  IsOpen : Bool := false
  Notes : String := ""
  Title : String := ""
  Resources : List Resource := []
  RelationshipsAsObject : List JsonValue := []
  Author : String := ""
  AuthorEmail : String := ""
  MaintainerEmail : String := ""
  NumResources : Int := 0
  URL : String := ""
  Extras : List Extra := []

/-- The anonymous struct type of the Result field of PackageIDResponse,
PackageSearchResponse and ResourceSearchResponse (the three are identical). -/
structure SearchResult where
  Count : Float64 := {}
  Sort_ : String := ""
  Facets : List (String × JsonValue) := []
  SearchFacets : List (String × JsonValue) := []
  Results : List Package := []

/-- Source: type PackageIDResponse. -/
structure PackageIDResponse where
  Help : String := ""
  Success : Bool := false
  Result : SearchResult := {}

/-- Source: type PackageMetadataResponse. -/
structure PackageMetadataResponse where
  Help : String := ""
  Success : Bool := false
  Result : Package := {}

/-- Source: type ResourceMetadataResponse. -/
structure ResourceMetadataResponse where
  Help : String := ""
  Success : Bool := false
  Result : Resource := {}

/-- Source: type GroupListResponse. -/
structure GroupListResponse where
  Help : String := ""
  Success : Bool := false
  Result : List String := []

/-- Source: type GroupMetadataResponse. -/
structure GroupMetadataResponse where
  Help : String := ""
  Success : Bool := false
  Result : Group := {}

/-- Source: type TagListResponse. -/
structure TagListResponse where
  Help : String := ""
  Success : Bool := false
  Result : List String := []

/-- Source: type TagMetadataResponse. -/
structure TagMetadataResponse where
  Help : String := ""
  Success : Bool := false
  Result : Tag := {}

/-- Source: type PackageSearchResponse. -/
structure PackageSearchResponse where
  Help : String := ""
  Success : Bool := false
  Result : SearchResult := {}

/-- Source: type ResourceSearchResponse. -/
structure ResourceSearchResponse where
  Help : String := ""
  Success : Bool := false
  Result : SearchResult := {}

/-- Source: type RecentActivityResponse. -/
structure RecentActivityResponse where
  Help : String := ""
  Success : Bool := false
  Result : List Activity := []

/-- Source: type Client. -/
structure Client where
  BaseURL : String

/-- Source: NewClient. -/
def NewClient (baseURL : String) : Client :=
  { BaseURL := baseURL }

/-! ## The environment: net/http, io, encoding/json -/

/-- Go http.Response, as far as the client reads it: the numeric status code, the
status line text, and what io.ReadAll returns for the body (data and error). -/
structure Response where
  StatusCode : Int
  Status : String
  Body : String × Option GoError

/-- The external collaborators.  Get and Post are http.Get (url) and http.Post (url,
content type, body), answering with a response or a transport error.  There is one
decoder per response type: json.Unmarshal applied to the body bytes and the current
value of the target, giving the target after decoding (possibly partly filled when
decoding fails) and the error. -/
structure Env where
  Get : String → Except GoError Response
  Post : String → String → String → Except GoError Response
  UnmarshalPackageSearch : String → PackageSearchResponse → PackageSearchResponse × Option GoError
  UnmarshalResourceSearch : String → ResourceSearchResponse →
      ResourceSearchResponse × Option GoError
  UnmarshalRecentActivity : String → RecentActivityResponse →
      RecentActivityResponse × Option GoError
  UnmarshalPackageID : String → PackageIDResponse → PackageIDResponse × Option GoError
  UnmarshalPackageMetadata : String → PackageMetadataResponse →
      PackageMetadataResponse × Option GoError
  UnmarshalResourceMetadata : String → ResourceMetadataResponse →
      ResourceMetadataResponse × Option GoError
  UnmarshalGroupList : String → GroupListResponse → GroupListResponse × Option GoError
  UnmarshalGroupMetadata : String → GroupMetadataResponse → GroupMetadataResponse × Option GoError
  UnmarshalTagList : String → TagListResponse → TagListResponse × Option GoError
  UnmarshalTagMetadata : String → TagMetadataResponse → TagMetadataResponse × Option GoError

/-- The calls a method makes to its collaborators, in program order. -/
inductive Event where
  | httpGet (url : String)
  | httpPost (url : String) (contentType : String) (body : String)
  | readAll
  | unmarshal (data : String)
  deriving DecidableEq

/-- A Go return pair (value, error) together with the log of collaborator calls. -/
structure Outcome (T : Type) where
  value : T
  err : Option GoError
  log : List Event

/-! ## strings, strconv, fmt -/

/-- Go strings.Join: the elements separated by sep; the empty string for no elements. -/
def Join : List String → String → String
  | [], _ => ""
  | [a], _ => a
  | a :: b :: rest, sep => a ++ sep ++ Join (b :: rest) sep

/-- Go strconv.Itoa: the base-10 rendering, with a leading minus sign for negatives. -/
def Itoa (i : Int) : String :=
  if i < 0 then "-" ++ Nat.repr i.natAbs else Nat.repr i.natAbs

/-! ## net/url -/

/-- Go url.Values, a map from key to the list of its values.  Keys are unique;
the list order is insertion order and is not observable through Encode. -/
abbrev Values := List (String × List String)

/-- Go Values.Add: append value to the values stored under key. -/
def Values.Add : Values → String → String → Values
  | [], key, value => [(key, [value])]
  | (k, vs) :: rest, key, value =>
    if k = key then (k, vs ++ [value]) :: rest else (k, vs) :: Values.Add rest key value

/-- The keys present in the map. -/
def Values.keys (v : Values) : List String := v.map Prod.fst

/-- Go map indexing v[key]: the values stored under key, nil when the key is absent. -/
def Values.index : Values → String → List String
  | [], _ => []
  | (k, vs) :: rest, key => if k = key then vs else Values.index rest key

/-- Upper-case hexadecimal digit, as used by percent-encoding. -/
def upperhex (n : Nat) : Char :=
  "0123456789ABCDEF".toList.getD n '0'

/-- Go url.shouldEscape in query-component mode, on one byte. -/
def shouldEscape (c : Nat) : Bool :=
  if (97 ≤ c ∧ c ≤ 122) ∨ (65 ≤ c ∧ c ≤ 90) ∨ (48 ≤ c ∧ c ≤ 57) then false
  else if c = 45 ∨ c = 95 ∨ c = 46 ∨ c = 126 then false
  else true

/-- Percent-encoding of one byte in query-component mode; a space becomes a plus sign. -/
def escapeByte (c : Nat) : List Char :=
  if shouldEscape c then
    if c = 32 then ['+'] else ['%', upperhex (c / 16), upperhex (c % 16)]
  else [Char.ofNat c]

/-- Go url.QueryEscape. -/
def QueryEscape (s : String) : String :=
  String.mk ((s.toList.flatMap String.utf8EncodeChar).flatMap (fun b => escapeByte b.toNat))

/-- Insertion of a key into a list of keys sorted ascending. -/
def insertKey (k : String) : List String → List String
  | [] => [k]
  | x :: xs => if k.toList < x.toList then k :: x :: xs else x :: insertKey k xs

/-- Keys sorted ascending, as Encode sorts them. -/
def sortKeys (ks : List String) : List String :=
  ks.foldr insertKey []

/-- Go Values.Encode: key=value pairs, keys sorted, joined by ampersands, both sides
query-escaped. -/
def Values.Encode (v : Values) : String :=
  Join ((sortKeys v.keys).flatMap (fun k =>
    (v.index k).map (fun value => QueryEscape k ++ "=" ++ QueryEscape value))) "&"

/-! ## setSearchParams -/

/-- Source: setSearchParams.  The query map is given as the sequence of its entries
in the order in which this run of the range loop visits them. -/
def setSearchParams (query : List (String × String)) (sort : String) (limit : Int) : Values :=
  let searchTerms : List String :=
    query.foldl (fun terms kv => terms ++ [kv.1 ++ ":" ++ kv.2]) []
  let searchQuery := Join searchTerms "+"
  let params : Values := []
  let params := if searchQuery ≠ "" then params.Add "q" searchQuery else params
  let params := if sort ≠ "" then params.Add "sort" sort else params
  let params := if limit ≠ 0 then params.Add "rows" (Itoa limit) else params
  params

/-! ## encoding/json, the encoding side -/

/-- Lower-case hexadecimal digit, as used by JSON unicode escapes. -/
def lowerhex (n : Nat) : Char :=
  "0123456789abcdef".toList.getD n '0'

/-- The encoding/json string encoder on one character, HTML escaping on (the
default of json.Marshal).  Code points: 34 quote, 92 backslash, 60, 62 and 38 the
HTML characters, 8232 and 8233 the line and paragraph separators. -/
def jsonEscapeChar (c : Char) : List Char :=
  let n := c.toNat
  let bs := Char.ofNat 92
  if n = 34 then [bs, Char.ofNat 34]
  else if n = 92 then [bs, bs]
  else if n = 8 then [bs, 'b']
  else if n = 12 then [bs, 'f']
  else if n = 10 then [bs, 'n']
  else if n = 13 then [bs, 'r']
  else if n = 9 then [bs, 't']
  else if n < 32 ∨ n = 60 ∨ n = 62 ∨ n = 38 then
    [bs, 'u', '0', '0', lowerhex (n / 16), lowerhex (n % 16)]
  else if n = 8232 ∨ n = 8233 then
    [bs, 'u', '2', '0', '2', lowerhex (n % 16)]
  else [c]

/-- A Go string as a JSON string literal. -/
def jsonString (s : String) : String :=
  String.mk ([Char.ofNat 34] ++ s.toList.flatMap jsonEscapeChar ++ [Char.ofNat 34])

/-- Go json.Marshal on a map[string]string: an object with the keys sorted.  It has
no failing case, so the error component is always nil. -/
def Marshal (m : List (String × String)) : String × Option GoError :=
  let members := (sortKeys (m.map Prod.fst)).flatMap (fun k =>
    ((m.filter (fun kv => kv.1 = k)).head?.map
      (fun kv => jsonString kv.1 ++ ":" ++ jsonString kv.2)).toList)
  (String.mk [Char.ofNat 123] ++ Join members "," ++ String.mk [Char.ofNat 125], none)

/-! ## The methods of Client -/

/-- Source: Client.SearchPackages. -/
def Client.SearchPackages (ckan : Client) (env : Env) (query : List (String × String))
    (sort : String) (limit : Int) : Outcome PackageSearchResponse :=
  let params := setSearchParams query sort limit
  let url := ckan.BaseURL ++ "/action/package_search?" ++ params.Encode
  match env.Get url with
  | .error err => ⟨{}, some err, [.httpGet url]⟩
  | .ok resp =>
    match resp.Body with
    | (_, some err) => ⟨{}, some err, [.httpGet url, .readAll]⟩
    | (body, none) =>
      if resp.StatusCode ≠ 200 then
        ⟨{}, some ("Failed to search packages: " ++ body), [.httpGet url, .readAll]⟩
      else
        match env.UnmarshalPackageSearch body {} with
        | (_, some err) => ⟨{}, some err, [.httpGet url, .readAll, .unmarshal body]⟩
        | (res, none) =>
          if !res.Success then
            ⟨{}, some ("Failed to search packages: " ++ body), [.httpGet url, .readAll,
                .unmarshal body]⟩
          else
            ⟨res, none, [.httpGet url, .readAll, .unmarshal body]⟩

/-- Source: Client.SearchResources. -/
def Client.SearchResources (ckan : Client) (env : Env) (query : List (String × String))
    (sort : String) (limit : Int) : Outcome ResourceSearchResponse :=
  let params := setSearchParams query sort limit
  let url := ckan.BaseURL ++ "/action/resource_search?" ++ params.Encode
  match env.Get url with
  | .error err => ⟨{}, some err, [.httpGet url]⟩
  | .ok resp =>
    match resp.Body with
    | (_, some err) => ⟨{}, some err, [.httpGet url, .readAll]⟩
    | (body, none) =>
      if resp.StatusCode ≠ 200 then
        ⟨{}, some ("Failed to search resources: " ++ body), [.httpGet url, .readAll]⟩
      else
        match env.UnmarshalResourceSearch body {} with
        | (_, some err) => ⟨{}, some err, [.httpGet url, .readAll, .unmarshal body]⟩
        | (res, none) =>
          if !res.Success then
            ⟨{}, some ("Failed to search resources: " ++ body), [.httpGet url, .readAll,
                .unmarshal body]⟩
          else
            ⟨res, none, [.httpGet url, .readAll, .unmarshal body]⟩

/-- Source: Client.RecentlyChangedPackagesActivityList.  The status is checked before
the body is read, and the status error quotes resp.Status. -/
def Client.RecentlyChangedPackagesActivityList (ckan : Client) (env : Env) :
    Outcome RecentActivityResponse :=
  let url := ckan.BaseURL ++ "/api/3/action/recently_changed_packages_activity_list"
  match env.Get url with
  | .error err => ⟨{}, some err, [.httpGet url]⟩
  | .ok resp =>
    if resp.StatusCode ≠ 200 then
      ⟨{}, some ("Failed to get recently changed packages activity list: " ++ resp.Status),
        [.httpGet url]⟩
    else
      match resp.Body with
      | (_, some err) => ⟨{}, some err, [.httpGet url, .readAll]⟩
      | (body, none) =>
        match env.UnmarshalRecentActivity body {} with
        | (_, some err) => ⟨{}, some err, [.httpGet url, .readAll, .unmarshal body]⟩
        | (res, none) =>
          if !res.Success then
            ⟨{}, some ("Failed to get recently changed packages activity list: " ++ body),
              [.httpGet url, .readAll, .unmarshal body]⟩
          else
            ⟨res, none, [.httpGet url, .readAll, .unmarshal body]⟩

/-- Source: Client.GetPackageList. -/
def Client.GetPackageList (ckan : Client) (env : Env) (sort : String) (limit : Int) :
    Outcome PackageIDResponse :=
  let params := setSearchParams [] sort limit
  let url := ckan.BaseURL ++ "/action/package_list?" ++ params.Encode
  match env.Get url with
  | .error err => ⟨{}, some err, [.httpGet url]⟩
  | .ok resp =>
    match resp.Body with
    | (_, some err) => ⟨{}, some err, [.httpGet url, .readAll]⟩
    | (body, none) =>
      if resp.StatusCode ≠ 200 then
        ⟨{}, some ("Failed to get package list: " ++ body), [.httpGet url, .readAll]⟩
      else
        match env.UnmarshalPackageID body {} with
        | (_, some err) => ⟨{}, some err, [.httpGet url, .readAll, .unmarshal body]⟩
        | (res, none) =>
          if !res.Success then
            ⟨{}, some ("Failed to get package list: " ++ body), [.httpGet url, .readAll,
                .unmarshal body]⟩
          else
            ⟨res, none, [.httpGet url, .readAll, .unmarshal body]⟩

/-- Source: Client.GetPackageIDList.  The returned slice is an optional list, none
being the nil slice of the error return. -/
def Client.GetPackageIDList (ckan : Client) (env : Env) (sort : String) (limit : Int) :
    Outcome (Option (List String)) :=
  let r := ckan.GetPackageList env sort limit
  match r.err with
  | some err => ⟨none, some err, r.log⟩
  | none =>
    let packages := r.value.Result.Results.foldl (fun packages p => packages ++ [p.ID]) []
    ⟨some packages, none, r.log⟩

/-- Source: Client.GetPackageMetadata. -/
def Client.GetPackageMetadata (ckan : Client) (env : Env) (packageID : String) :
    Outcome PackageMetadataResponse :=
  let url := ckan.BaseURL ++ "/action/package_show?id=" ++ packageID
  match env.Get url with
  | .error err => ⟨{}, some err, [.httpGet url]⟩
  | .ok resp =>
    match resp.Body with
    | (_, some err) => ⟨{}, some err, [.httpGet url, .readAll]⟩
    | (body, none) =>
      if resp.StatusCode ≠ 200 then
        ⟨{}, some ("Failed to get package metadata: " ++ body), [.httpGet url, .readAll]⟩
      else
        match env.UnmarshalPackageMetadata body {} with
        | (_, some err) => ⟨{}, some err, [.httpGet url, .readAll, .unmarshal body]⟩
        | (res, none) =>
          if !res.Success then
            ⟨{}, some ("Failed to get package metadata: " ++ body), [.httpGet url, .readAll,
                .unmarshal body]⟩
          else
            ⟨res, none, [.httpGet url, .readAll, .unmarshal body]⟩

/-- The range loop of Client.GetResourceID: the first non-empty resource ID, and the
empty string with a nil error when the loop runs to its end. -/
def GetResourceID.loop : List Resource → String × Option GoError
  | [] => ("", none)
  | resource :: rest =>
    if resource.ID ≠ "" then (resource.ID, none) else GetResourceID.loop rest

/-- Source: Client.GetResourceID. -/
def Client.GetResourceID (ckan : Client) (env : Env) (packageID : String) : Outcome String :=
  let r := ckan.GetPackageMetadata env packageID
  match r.err with
  | some err => ⟨"", some err, r.log⟩
  | none =>
    let resources := r.value.Result.Resources
    if resources.length = 0 then
      ⟨"", some ("No resources found for package " ++ packageID), r.log⟩
    else
      ⟨(GetResourceID.loop resources).1, (GetResourceID.loop resources).2, r.log⟩

/-- Source: Client.GetResourceMetadata. -/
def Client.GetResourceMetadata (ckan : Client) (env : Env) (resourceID : String) :
    Outcome ResourceMetadataResponse :=
  let data := [("id", resourceID)]
  match Marshal data with
  | (_, some err) => ⟨{}, some err, []⟩
  | (jsonData, none) =>
    let url := ckan.BaseURL ++ "/action/resource_show"
    match env.Post url "application/json" jsonData with
    | .error err => ⟨{}, some err, [.httpPost url "application/json" jsonData]⟩
    | .ok resp =>
      match resp.Body with
      | (_, some err) => ⟨{}, some err, [.httpPost url "application/json" jsonData, .readAll]⟩
      | (body, none) =>
        if resp.StatusCode ≠ 200 then
          ⟨{}, some ("Failed to get resource metadata: " ++ body),
            [.httpPost url "application/json" jsonData, .readAll]⟩
        else
          match env.UnmarshalResourceMetadata body {} with
          | (_, some err) =>
            ⟨{}, some err, [.httpPost url "application/json" jsonData, .readAll, .unmarshal body]⟩
          | (res, none) =>
            if !res.Success then
              ⟨{}, some ("Failed to get resource metadata: " ++ body),
                [.httpPost url "application/json" jsonData, .readAll, .unmarshal body]⟩
            else
              ⟨res, none, [.httpPost url "application/json" jsonData, .readAll, .unmarshal body]⟩

/-- Source: Client.GetGroupList. -/
def Client.GetGroupList (ckan : Client) (env : Env) (sort : String) (limit : Int) :
    Outcome GroupListResponse :=
  let params := setSearchParams [] sort limit
  let url := ckan.BaseURL ++ "/action/group_list?" ++ params.Encode
  match env.Get url with
  | .error err => ⟨{}, some err, [.httpGet url]⟩
  | .ok resp =>
    match resp.Body with
    | (_, some err) => ⟨{}, some err, [.httpGet url, .readAll]⟩
    | (body, none) =>
      if resp.StatusCode ≠ 200 then
        ⟨{}, some ("Failed to get group list: " ++ body), [.httpGet url, .readAll]⟩
      else
        match env.UnmarshalGroupList body {} with
        | (_, some err) => ⟨{}, some err, [.httpGet url, .readAll, .unmarshal body]⟩
        | (res, none) =>
          if !res.Success then
            ⟨{}, some ("Failed to get group list: " ++ body), [.httpGet url, .readAll,
                .unmarshal body]⟩
          else
            ⟨res, none, [.httpGet url, .readAll, .unmarshal body]⟩

/-- Source: Client.GetGroupMetadata. -/
def Client.GetGroupMetadata (ckan : Client) (env : Env) (groupID : String) :
    Outcome GroupMetadataResponse :=
  let url := ckan.BaseURL ++ "/action/group_show?id=" ++ groupID
  match env.Get url with
  | .error err => ⟨{}, some err, [.httpGet url]⟩
  | .ok resp =>
    match resp.Body with
    | (_, some err) => ⟨{}, some err, [.httpGet url, .readAll]⟩
    | (body, none) =>
      if resp.StatusCode ≠ 200 then
        ⟨{}, some ("Failed to get group metadata: " ++ body), [.httpGet url, .readAll]⟩
      else
        match env.UnmarshalGroupMetadata body {} with
        | (_, some err) => ⟨{}, some err, [.httpGet url, .readAll, .unmarshal body]⟩
        | (res, none) =>
          if !res.Success then
            ⟨{}, some ("Failed to get group metadata: " ++ body), [.httpGet url, .readAll,
                .unmarshal body]⟩
          else
            ⟨res, none, [.httpGet url, .readAll, .unmarshal body]⟩

/-- Source: Client.GetTagList. -/
def Client.GetTagList (ckan : Client) (env : Env) (sort : String) (limit : Int) :
    Outcome TagListResponse :=
  let params := setSearchParams [] sort limit
  let url := ckan.BaseURL ++ "/action/tag_list?" ++ params.Encode
  match env.Get url with
  | .error err => ⟨{}, some err, [.httpGet url]⟩
  | .ok resp =>
    match resp.Body with
    | (_, some err) => ⟨{}, some err, [.httpGet url, .readAll]⟩
    | (body, none) =>
      if resp.StatusCode ≠ 200 then
        ⟨{}, some ("Failed to get tag list: " ++ body), [.httpGet url, .readAll]⟩
      else
        match env.UnmarshalTagList body {} with
        | (_, some err) => ⟨{}, some err, [.httpGet url, .readAll, .unmarshal body]⟩
        | (res, none) =>
          if !res.Success then
            ⟨{}, some ("Failed to get tag list: " ++ body), [.httpGet url, .readAll,
                .unmarshal body]⟩
          else
            ⟨res, none, [.httpGet url, .readAll, .unmarshal body]⟩

/-- Source: Client.GetTagMetadata. -/
def Client.GetTagMetadata (ckan : Client) (env : Env) (tagName : String) :
    Outcome TagMetadataResponse :=
  let url := ckan.BaseURL ++ "/action/tag_show?id=" ++ tagName
  match env.Get url with
  | .error err => ⟨{}, some err, [.httpGet url]⟩
  | .ok resp =>
    match resp.Body with
    | (_, some err) => ⟨{}, some err, [.httpGet url, .readAll]⟩
    | (body, none) =>
      if resp.StatusCode ≠ 200 then
        ⟨{}, some ("Failed to get tag metadata: " ++ body), [.httpGet url, .readAll]⟩
      else
        match env.UnmarshalTagMetadata body {} with
        | (_, some err) => ⟨{}, some err, [.httpGet url, .readAll, .unmarshal body]⟩
        | (res, none) =>
          if !res.Success then
            ⟨{}, some ("Failed to get tag metadata: " ++ body), [.httpGet url, .readAll,
                .unmarshal body]⟩
          else
            ⟨res, none, [.httpGet url, .readAll, .unmarshal body]⟩

/-! ## Vocabulary for stating the claims -/

/-- The log entry is an HTTP request (a GET or a POST). -/
def Event.isRequest : Event → Bool
  | .httpGet _ => true
  | .httpPost _ _ _ => true
  | _ => false

/-- The log entry is a call of json.Unmarshal. -/
def Event.isUnmarshal : Event → Bool
  | .unmarshal _ => true
  | _ => false

/-- The text msg contains the text part as a contiguous run of characters. -/
def Contains (msg part : String) : Prop :=
  part.toList <:+: msg.toList

instance (msg part : String) : Decidable (Contains msg part) := by
  unfold Contains
  infer_instance

/-- The transport answered with HTTP status 200 and a readable body, and decoding the
body from the zero value left an envelope whose success flag is false; decodeErr is
the error the decoder reported, none when it accepted the body. -/
def AnsweredSuccessFalse {T : Type} (answer : Except GoError Response)
    (decode : String → T → T × Option GoError) (zero : T) (success : T → Bool)
    (body : String) (decodeErr : Option GoError) : Prop :=
  ∃ resp res, answer = .ok resp ∧ resp.StatusCode = 200 ∧ resp.Body = (body, none) ∧
    decode body zero = (res, decodeErr) ∧ success res = false

/-- The transport answered with an HTTP status outside 200..299. -/
def AnsweredNon2xx (answer : Except GoError Response) : Prop :=
  ∃ resp, answer = .ok resp ∧ (resp.StatusCode < 200 ∨ 299 < resp.StatusCode)

/-- The transport answered with an HTTP status outside 200..299 and the given body. -/
def AnsweredNon2xxWithBody (answer : Except GoError Response) (body : String) : Prop :=
  ∃ resp, answer = .ok resp ∧ (resp.StatusCode < 200 ∨ 299 < resp.StatusCode) ∧
    resp.Body = (body, none)

/-- The value is what the decoder made, without error, of the body of a status 200
answer, starting from the zero value. -/
def DecodedFrom {T : Type} (answer : Except GoError Response)
    (decode : String → T → T × Option GoError) (zero : T) (value : T) : Prop :=
  ∃ resp body, answer = .ok resp ∧ resp.StatusCode = 200 ∧ resp.Body = (body, none) ∧
    decode body zero = (value, none)

/-- The number a sequence of decimal digit characters denotes, most significant digit
first. -/
def decimalValue (digits : List Char) : Nat :=
  digits.foldl (fun v c => 10 * v + (c.toNat - 48)) 0

/-- The string s is the decimal rendering of the integer i: a minus sign exactly when
i is negative, followed by a non-empty run of the characters 0 to 9 that denotes the
absolute value of i and has no leading zero, except for the single digit 0. -/
def DecimalRendering (i : Int) (s : String) : Prop :=
  ∃ digits : List Char, s.toList = (if i < 0 then ['-'] else []) ++ digits ∧
    digits ≠ [] ∧ (∀ c ∈ digits, 48 ≤ c.toNat ∧ c.toNat ≤ 57) ∧
    decimalValue digits = i.natAbs ∧ (digits.head? = some '0' → digits = ['0'])

/-- The value of a hexadecimal digit character, in either case. -/
def hexValue (c : Char) : Option Nat :=
  let n := c.toNat
  if 48 ≤ n ∧ n ≤ 57 then some (n - 48)
  else if 97 ≤ n ∧ n ≤ 102 then some (n - 87)
  else if 65 ≤ n ∧ n ≤ 70 then some (n - 55)
  else none

/-- The character denoted by a two-character JSON escape, given the character after
the backslash (code points: 34 quote, 92 backslash, 47 solidus). -/
def jsonUnescape (e : Char) : Option Char :=
  let n := e.toNat
  if n = 34 then some (Char.ofNat 34)
  else if n = 92 then some (Char.ofNat 92)
  else if n = 47 then some (Char.ofNat 47)
  else if e = 'b' then some (Char.ofNat 8)
  else if e = 'f' then some (Char.ofNat 12)
  else if e = 'n' then some (Char.ofNat 10)
  else if e = 'r' then some (Char.ofNat 13)
  else if e = 't' then some (Char.ofNat 9)
  else none

/-- The state of the JSON string reader: between characters, after a backslash, or
inside a unicode escape with that many hexadecimal digits to come and the value of
the digits read so far. -/
inductive JsonReadState where
  | normal
  | escape
  | hex (left : Nat) (value : Nat)

/-- A reader of JSON string literals after the JSON grammar (RFC 8259): given the
text after the opening quote it returns the characters denoted up to the closing
quote, and the text after it.  An unescaped control character, an unknown escape and
a text that ends before the closing quote are rejected. -/
def readJsonChars : List Char → JsonReadState → List Char → Option (List Char × List Char)
  | [], _, _ => none
  | c :: rest, .normal, acc =>
    if c.toNat = 34 then some (acc.reverse, rest)
    else if c.toNat = 92 then readJsonChars rest .escape acc
    else if c.toNat < 32 then none
    else readJsonChars rest .normal (c :: acc)
  | c :: rest, .escape, acc =>
    if c = 'u' then readJsonChars rest (.hex 4 0) acc
    else
      match jsonUnescape c with
      | some ch => readJsonChars rest .normal (ch :: acc)
      | none => none
  | c :: rest, .hex left value, acc =>
    match hexValue c with
    | none => none
    | some x =>
      if left ≤ 1 then
        if 55296 ≤ value * 16 + x ∧ value * 16 + x ≤ 57343 then none
        else readJsonChars rest .normal (Char.ofNat (value * 16 + x) :: acc)
      else readJsonChars rest (.hex (left - 1) (value * 16 + x)) acc

/-- A JSON string literal at the head of the text: its value and the text after it. -/
def readJsonString : List Char → Option (List Char × List Char)
  | [] => none
  | c :: rest => if c.toNat = 34 then readJsonChars rest .normal [] else none

/-- A reader of JSON objects that have exactly one member, with a string value, and
no insignificant whitespace: the member's name and value. -/
def readJsonObject1 (body : String) : Option (String × String) :=
  match body.toList with
  | [] => none
  | c :: rest =>
    if c.toNat = 123 then
      match readJsonString rest with
      | some (name, c2 :: rest2) =>
        if c2 = ':' then
          match readJsonString rest2 with
          | some (value, [c3]) =>
            if c3.toNat = 125 then some (String.mk name, String.mk value) else none
          | _ => none
        else none
      | _ => none
    else none

/-- An environment for worked examples: the transport gives the same answer to every
request, and every decoder ignores the bytes and yields an envelope with the given
success flag, packages and resources, together with the given decoding error. -/
def fixedEnv (answer : Except GoError Response) (success : Bool) (decodeErr : Option GoError)
    (packages : List Package) (resources : List Resource) : Env where
  Get := fun _ => answer
  Post := fun _ _ _ => answer
  UnmarshalPackageSearch := fun _ v =>
    ({ v with Success := success, Result := { v.Result with Results := packages } }, decodeErr)
  UnmarshalResourceSearch := fun _ v =>
    ({ v with Success := success, Result := { v.Result with Results := packages } }, decodeErr)
  UnmarshalRecentActivity := fun _ v => ({ v with Success := success }, decodeErr)
  UnmarshalPackageID := fun _ v =>
    ({ v with Success := success, Result := { v.Result with Results := packages } }, decodeErr)
  UnmarshalPackageMetadata := fun _ v =>
    ({ v with Success := success, Result := { v.Result with Resources := resources } }, decodeErr)
  UnmarshalResourceMetadata := fun _ v => ({ v with Success := success }, decodeErr)
  UnmarshalGroupList := fun _ v => ({ v with Success := success }, decodeErr)
  UnmarshalGroupMetadata := fun _ v => ({ v with Success := success }, decodeErr)
  UnmarshalTagList := fun _ v => ({ v with Success := success }, decodeErr)
  UnmarshalTagMetadata := fun _ v => ({ v with Success := success }, decodeErr)

/-- A server answering every request with status 500 and the body "boom". -/
def env500 : Env :=
  fixedEnv (.ok ⟨500, "500 Internal Server Error", ("boom", none)⟩) true none [] []

/-- A server answering 200 whose package has the resources with IDs "" and "r2". -/
def envTwoResources : Env :=
  fixedEnv (.ok ⟨200, "200 OK", ("ok", none)⟩) true none [] [{ ID := "" }, { ID := "r2" }]

/-- A server answering 200 whose package list holds the IDs "a", "b", "" and "a". -/
def envFourPackages : Env :=
  fixedEnv (.ok ⟨200, "200 OK", ("ok", none)⟩) true none
    [{ ID := "a" }, { ID := "b" }, { ID := "" }, { ID := "a" }] []

/-- A server answering 200 with the body of an unsuccessful envelope, which every
decoder accepts. -/
def envSuccessFalse : Env :=
  fixedEnv
    (.ok ⟨200, "200 OK",
      ("\x7b\x22help\x22:\x22x\x22,\x22success\x22:false,\x22result\x22:\x7b\x7d\x7d", none)⟩)
    false none [] []

/-! ## Auxiliary facts about strings and the loops -/

theorem string_ne_empty_of_data {s : String} (h : s.data ≠ []) : s ≠ "" := by
  intro hs
  apply h
  rw [hs]

theorem term_ne_empty (k v : String) : k ++ ":" ++ v ≠ "" := by
  apply string_ne_empty_of_data
  simp [String.data_append]

theorem Join_cons_ne_empty (a : String) (l : List String) (sep : String) (h : a ≠ "") :
    Join (a :: l) sep ≠ "" := by
  have ha : a.data ≠ [] := by
    intro hd
    apply h
    exact String.ext hd
  cases l with
  | nil => simpa [Join] using h
  | cons b rest =>
    apply string_ne_empty_of_data
    simp [Join, String.data_append, ha]

theorem foldl_snoc_eq_map {α β : Type} (f : α → β) (l : List α) (init : List β) :
    l.foldl (fun acc x => acc ++ [f x]) init = init ++ l.map f := by
  induction l generalizing init with
  | nil => simp
  | cons x xs ih => simp [ih]

theorem searchTerms_eq (query : List (String × String)) :
    query.foldl (fun terms kv => terms ++ [kv.1 ++ ":" ++ kv.2]) []
      = query.map (fun kv => kv.1 ++ ":" ++ kv.2) := by
  simpa using foldl_snoc_eq_map (fun kv : String × String => kv.1 ++ ":" ++ kv.2) query []

theorem searchQuery_ne_empty (query : List (String × String)) (h : query ≠ []) :
    Join (query.foldl (fun terms kv => terms ++ [kv.1 ++ ":" ++ kv.2]) []) "+" ≠ "" := by
  rw [searchTerms_eq]
  cases query with
  | nil => exact absurd rfl h
  | cons e rest =>
    simp only [List.map_cons]
    exact Join_cons_ne_empty _ _ _ (term_ne_empty e.1 e.2)

theorem intercalate_go_append (x y sep : String) (l : List String) :
    String.intercalate.go (x ++ y) sep l = x ++ String.intercalate.go y sep l := by
  induction l generalizing y with
  | nil => simp [String.intercalate.go]
  | cons c rest ih =>
    simp only [String.intercalate.go]
    rw [String.append_assoc x y sep, String.append_assoc x (y ++ sep) c, ih]

theorem Join_eq_intercalate (l : List String) (sep : String) :
    Join l sep = sep.intercalate l := by
  cases l with
  | nil => rfl
  | cons a rest =>
    simp only [String.intercalate]
    induction rest generalizing a with
    | nil => simp [Join, String.intercalate.go]
    | cons b rest ih =>
      simp only [Join, String.intercalate.go]
      rw [ih b, intercalate_go_append]

theorem digitChar_toNat (d : Nat) (h : d < 10) : (Nat.digitChar d).toNat = 48 + d := by
  interval_cases d <;> rfl

theorem decimalValue_snoc (pre : List Char) (d : Char) :
    decimalValue (pre ++ [d]) = 10 * decimalValue pre + (d.toNat - 48) := by
  simp [decimalValue, List.foldl_append]

theorem toDigitsCore_spec (fuel : Nat) : ∀ (n : Nat) (ds : List Char), n < fuel →
    ∃ pre, Nat.toDigitsCore 10 fuel n ds = pre ++ ds ∧ pre ≠ [] ∧
      (∀ c ∈ pre, 48 ≤ c.toNat ∧ c.toNat ≤ 57) ∧ decimalValue pre = n ∧
      (pre.head? = some '0' → pre = ['0']) := by
  induction fuel with
  | zero => intro n ds h; omega
  | succ fuel ih =>
    intro n ds h
    have hd : (Nat.digitChar (n % 10)).toNat = 48 + n % 10 :=
      digitChar_toNat _ (Nat.mod_lt _ (by decide))
    by_cases hn : n / 10 = 0
    · refine ⟨[Nat.digitChar (n % 10)], ?_, by simp, ?_, ?_, ?_⟩
      · simp [Nat.toDigitsCore, hn]
      · intro c hc
        simp at hc
        subst hc
        omega
      · simp [decimalValue, hd]
        omega
      · intro h0
        simpa using h0
    · obtain ⟨pre, hpre, hne, hdig, hval, hlead⟩ :=
        ih (n / 10) (Nat.digitChar (n % 10) :: ds) (by omega)
      refine ⟨pre ++ [Nat.digitChar (n % 10)], ?_, by simp, ?_, ?_, ?_⟩
      · simp [Nat.toDigitsCore, hn, hpre]
      · intro c hc
        rcases List.mem_append.mp hc with hc | hc
        · exact hdig c hc
        · simp at hc
          subst hc
          omega
      · rw [decimalValue_snoc, hval, hd]
        omega
      · intro h0
        exfalso
        have hh : pre.head? = some '0' := by
          cases pre with
          | nil => exact absurd rfl hne
          | cons a r => simpa using h0
        have := hlead hh
        rw [this] at hval
        simp [decimalValue] at hval
        omega

theorem Itoa_DecimalRendering (i : Int) : DecimalRendering i (Itoa i) := by
  obtain ⟨pre, hpre, hne, hdig, hval, hlead⟩ :=
    toDigitsCore_spec (i.natAbs + 1) i.natAbs [] (by omega)
  refine ⟨pre, ?_, hne, hdig, hval, hlead⟩
  have hrepr : (Nat.repr i.natAbs).toList = pre := by
    simp [Nat.repr, Nat.toDigits, hpre, List.asString]
  by_cases hi : i < 0
  · simp [Itoa, hi, String.data_append, ← hrepr]
  · simp [Itoa, hi, ← hrepr]

/-! ## Claims about setSearchParams -/

/-- C4: the parameters built by setSearchParams hold the key q exactly when the query
has an entry, the key sort exactly when sort is non-empty and the key rows exactly
when limit is not 0; when present, sort carries the single value sort unchanged and
rows the single value Itoa limit, which is the decimal rendering of limit: a minus
sign exactly for a negative limit, then the digits of its absolute value without a
leading zero; no key other than these three occurs. -/
theorem setSearchParams_keys_and_values (query : List (String × String)) (sort : String)
    (limit : Int) :
    ("q" ∈ (setSearchParams query sort limit).keys ↔ query ≠ []) ∧
    ("sort" ∈ (setSearchParams query sort limit).keys ↔ sort ≠ "") ∧
    ("rows" ∈ (setSearchParams query sort limit).keys ↔ limit ≠ 0) ∧
    (setSearchParams query sort limit).index "sort" = (if sort = "" then [] else [sort]) ∧
    (setSearchParams query sort limit).index "rows"
      = (if limit = 0 then [] else [Itoa limit]) ∧
    (∀ k ∈ (setSearchParams query sort limit).keys, k = "q" ∨ k = "sort" ∨ k = "rows") ∧
    (limit ≠ 0 → ∃ s, (setSearchParams query sort limit).index "rows" = [s] ∧
      DecimalRendering limit s) := by
  have hdec := Itoa_DecimalRendering limit
  have hq : query = [] ∨ query ≠ [] := by
    cases query with
    | nil => exact Or.inl rfl
    | cons e rest => exact Or.inr (by simp)
  rcases hq with hq | hq
  · subst hq
    by_cases hs : sort = "" <;> by_cases hl : limit = 0 <;>
      simp [setSearchParams, Join, Values.Add, Values.keys, Values.index, hs, hl, hdec]
  · have hne := searchQuery_ne_empty query hq
    by_cases hs : sort = "" <;> by_cases hl : limit = 0 <;>
      simp [setSearchParams, Values.Add, Values.keys, Values.index, hs, hl, hne, hq, hdec]

/-- Witness for C4: one query term, a sort expression and the limit -5 give the three
keys, with rows holding "-5"; the limit 40 gives "40"; no query, no sort and the limit
0 give no parameter at all. -/
theorem setSearchParams_keys_and_values_witness :
    (setSearchParams [("a", "b")] "metadata_modified desc" (-5)).index "rows" = ["-5"] ∧
    (setSearchParams [("a", "b")] "metadata_modified desc" (-5)).index "sort"
      = ["metadata_modified desc"] ∧
    setSearchParams [("a", "b")] "metadata_modified desc" (-5)
      = [("q", ["a:b"]), ("sort", ["metadata_modified desc"]), ("rows", ["-5"])] ∧
    (setSearchParams [] "" 40).index "rows" = ["40"] ∧
    setSearchParams [] "" 0 = [] :=
  ⟨(setSearchParams_keys_and_values [("a", "b")] "metadata_modified desc" (-5)).2.2.2.2.1,
    (setSearchParams_keys_and_values [("a", "b")] "metadata_modified desc" (-5)).2.2.2.1,
    by decide,
    (setSearchParams_keys_and_values [] "" 40).2.2.2.2.1,
    by decide⟩

/-- C5: for a query mapping with at least one entry, whatever order the range loop
visits the entries in, the value of q is the single string made of the terms
field ++ ":" ++ value, one for each entry in the order visited, separated by "+"
(stated with the library function String.intercalate); the order visited is a
permutation of the entries of the mapping, so every entry appears exactly once and
nothing else appears. -/
theorem setSearchParams_q_is_joined_terms (m iter : List (String × String)) (sort : String)
    (limit : Int) (hiter : iter.Perm m) (hm : m ≠ []) :
    (setSearchParams iter sort limit).index "q"
      = ["+".intercalate (iter.map (fun e => e.1 ++ ":" ++ e.2))] ∧
    (∃ ordering : List (String × String), ordering.Perm m ∧
      ordering.length = m.length ∧
      (setSearchParams iter sort limit).index "q"
        = ["+".intercalate (ordering.map (fun e => e.1 ++ ":" ++ e.2))]) := by
  have hi : iter ≠ [] := by
    intro h
    subst h
    exact hm (List.Perm.nil_eq hiter).symm
  have hne := searchQuery_ne_empty iter hi
  rw [searchTerms_eq] at hne
  have hq : (setSearchParams iter sort limit).index "q"
      = ["+".intercalate (iter.map (fun e => e.1 ++ ":" ++ e.2))] := by
    rw [← Join_eq_intercalate]
    by_cases hs : sort = "" <;> by_cases hl : limit = 0 <;>
      simp [setSearchParams, searchTerms_eq, Values.Add, Values.index, hs, hl, hne]
  exact ⟨hq, iter, hiter, hiter.length_eq, hq⟩

/-- Witness for C5: a mapping with the entries a:b and c:d, visited in the order c, a,
gives q the single value "c:d+a:b", and with the sort and limit left out the
parameters hold nothing else. -/
theorem setSearchParams_q_is_joined_terms_witness :
    [("c", "d"), ("a", "b")].Perm [("a", "b"), ("c", "d")] ∧
    (setSearchParams [("c", "d"), ("a", "b")] "" 0).index "q" = ["c:d+a:b"] ∧
    setSearchParams [("c", "d"), ("a", "b")] "" 0 = [("q", ["c:d+a:b"])] :=
  ⟨List.Perm.swap _ _ _,
    (setSearchParams_q_is_joined_terms [("a", "b"), ("c", "d")] [("c", "d"), ("a", "b")] "" 0
      (List.Perm.swap _ _ _) (by decide)).1,
    by decide⟩

/-! ## Error handling -/

theorem GetResourceID.loop_err (l : List Resource) : (GetResourceID.loop l).2 = none := by
  induction l with
  | nil => rfl
  | cons r rest ih =>
    unfold GetResourceID.loop
    split <;> simp [ih]

/-- C10: no method has a partial-success outcome.  Whenever one of the twelve methods
returns a non-nil error, the value returned with it is the zero value (the empty
response struct, the nil list for GetPackageIDList, the empty string for
GetResourceID), whatever had been decoded before the failure; and whenever one of the
ten response-returning methods returns a nil error, its value has Success = true and
is exactly what the decoder produced, without error, from the body of a status 200
answer. -/
theorem no_partial_success (ckan : Client) (env : Env) (query : List (String × String))
    (sort : String) (limit : Int) (id : String) :
    ((ckan.SearchPackages env query sort limit).err ≠ none →
      (ckan.SearchPackages env query sort limit).value = {}) ∧
    ((ckan.SearchResources env query sort limit).err ≠ none →
      (ckan.SearchResources env query sort limit).value = {}) ∧
    ((ckan.RecentlyChangedPackagesActivityList env).err ≠ none →
      (ckan.RecentlyChangedPackagesActivityList env).value = {}) ∧
    ((ckan.GetPackageList env sort limit).err ≠ none →
      (ckan.GetPackageList env sort limit).value = {}) ∧
    ((ckan.GetPackageMetadata env id).err ≠ none →
      (ckan.GetPackageMetadata env id).value = {}) ∧
    ((ckan.GetResourceMetadata env id).err ≠ none →
      (ckan.GetResourceMetadata env id).value = {}) ∧
    ((ckan.GetGroupList env sort limit).err ≠ none →
      (ckan.GetGroupList env sort limit).value = {}) ∧
    ((ckan.GetGroupMetadata env id).err ≠ none →
      (ckan.GetGroupMetadata env id).value = {}) ∧
    ((ckan.GetTagList env sort limit).err ≠ none →
      (ckan.GetTagList env sort limit).value = {}) ∧
    ((ckan.GetTagMetadata env id).err ≠ none →
      (ckan.GetTagMetadata env id).value = {}) ∧
    ((ckan.GetPackageIDList env sort limit).err ≠ none →
      (ckan.GetPackageIDList env sort limit).value = none) ∧
    ((ckan.GetResourceID env id).err ≠ none →
      (ckan.GetResourceID env id).value = "") ∧
    ((ckan.SearchPackages env query sort limit).err = none →
      (ckan.SearchPackages env query sort limit).value.Success = true ∧
      DecodedFrom (env.Get (ckan.BaseURL ++ "/action/package_search?" ++
          (setSearchParams query sort limit).Encode))
        env.UnmarshalPackageSearch {} (ckan.SearchPackages env query sort limit).value) ∧
    ((ckan.SearchResources env query sort limit).err = none →
      (ckan.SearchResources env query sort limit).value.Success = true ∧
      DecodedFrom (env.Get (ckan.BaseURL ++ "/action/resource_search?" ++
          (setSearchParams query sort limit).Encode))
        env.UnmarshalResourceSearch {} (ckan.SearchResources env query sort limit).value) ∧
    ((ckan.RecentlyChangedPackagesActivityList env).err = none →
      (ckan.RecentlyChangedPackagesActivityList env).value.Success = true ∧
      DecodedFrom (env.Get (ckan.BaseURL ++
          "/api/3/action/recently_changed_packages_activity_list"))
        env.UnmarshalRecentActivity {} (ckan.RecentlyChangedPackagesActivityList env).value) ∧
    ((ckan.GetPackageList env sort limit).err = none →
      (ckan.GetPackageList env sort limit).value.Success = true ∧
      DecodedFrom (env.Get (ckan.BaseURL ++ "/action/package_list?" ++
          (setSearchParams [] sort limit).Encode))
        env.UnmarshalPackageID {} (ckan.GetPackageList env sort limit).value) ∧
    ((ckan.GetPackageMetadata env id).err = none →
      (ckan.GetPackageMetadata env id).value.Success = true ∧
      DecodedFrom (env.Get (ckan.BaseURL ++ "/action/package_show?id=" ++ id))
        env.UnmarshalPackageMetadata {} (ckan.GetPackageMetadata env id).value) ∧
    ((ckan.GetResourceMetadata env id).err = none →
      (ckan.GetResourceMetadata env id).value.Success = true ∧
      DecodedFrom (env.Post (ckan.BaseURL ++
          "/action/resource_show") "application/json" (Marshal [("id", id)]).1)
        env.UnmarshalResourceMetadata {} (ckan.GetResourceMetadata env id).value) ∧
    ((ckan.GetGroupList env sort limit).err = none →
      (ckan.GetGroupList env sort limit).value.Success = true ∧
      DecodedFrom (env.Get (ckan.BaseURL ++ "/action/group_list?" ++
          (setSearchParams [] sort limit).Encode))
        env.UnmarshalGroupList {} (ckan.GetGroupList env sort limit).value) ∧
    ((ckan.GetGroupMetadata env id).err = none →
      (ckan.GetGroupMetadata env id).value.Success = true ∧
      DecodedFrom (env.Get (ckan.BaseURL ++ "/action/group_show?id=" ++ id))
        env.UnmarshalGroupMetadata {} (ckan.GetGroupMetadata env id).value) ∧
    ((ckan.GetTagList env sort limit).err = none →
      (ckan.GetTagList env sort limit).value.Success = true ∧
      DecodedFrom (env.Get (ckan.BaseURL ++ "/action/tag_list?" ++
          (setSearchParams [] sort limit).Encode))
        env.UnmarshalTagList {} (ckan.GetTagList env sort limit).value) ∧
    ((ckan.GetTagMetadata env id).err = none →
      (ckan.GetTagMetadata env id).value.Success = true ∧
      DecodedFrom (env.Get (ckan.BaseURL ++ "/action/tag_show?id=" ++ id))
        env.UnmarshalTagMetadata {} (ckan.GetTagMetadata env id).value) := by
  refine ⟨?_, ?_, ?_, ?_, ?_, ?_, ?_, ?_, ?_, ?_, ?_, ?_, ?_, ?_, ?_, ?_, ?_, ?_, ?_, ?_, ?_, ?_⟩
  · unfold Client.SearchPackages
    simp only []
    repeat' split
    all_goals simp
  · unfold Client.SearchResources
    simp only []
    repeat' split
    all_goals simp
  · unfold Client.RecentlyChangedPackagesActivityList
    simp only []
    repeat' split
    all_goals simp
  · unfold Client.GetPackageList
    simp only []
    repeat' split
    all_goals simp
  · unfold Client.GetPackageMetadata
    simp only []
    repeat' split
    all_goals simp
  · unfold Client.GetResourceMetadata
    simp only []
    repeat' split
    all_goals simp
  · unfold Client.GetGroupList
    simp only []
    repeat' split
    all_goals simp
  · unfold Client.GetGroupMetadata
    simp only []
    repeat' split
    all_goals simp
  · unfold Client.GetTagList
    simp only []
    repeat' split
    all_goals simp
  · unfold Client.GetTagMetadata
    simp only []
    repeat' split
    all_goals simp
  · unfold Client.GetPackageIDList
    simp only []
    split <;> simp
  · unfold Client.GetResourceID
    simp only []
    repeat' split
    all_goals simp [GetResourceID.loop_err]
  · unfold Client.SearchPackages DecodedFrom
    simp only []
    repeat' split
    all_goals simp_all
  · unfold Client.SearchResources DecodedFrom
    simp only []
    repeat' split
    all_goals simp_all
  · unfold Client.RecentlyChangedPackagesActivityList DecodedFrom
    simp only []
    repeat' split
    all_goals simp_all
  · unfold Client.GetPackageList DecodedFrom
    simp only []
    repeat' split
    all_goals simp_all
  · unfold Client.GetPackageMetadata DecodedFrom
    simp only []
    repeat' split
    all_goals simp_all
  · unfold Client.GetResourceMetadata DecodedFrom
    simp only []
    repeat' split
    all_goals simp_all
  · unfold Client.GetGroupList DecodedFrom
    simp only []
    repeat' split
    all_goals simp_all
  · unfold Client.GetGroupMetadata DecodedFrom
    simp only []
    repeat' split
    all_goals simp_all
  · unfold Client.GetTagList DecodedFrom
    simp only []
    repeat' split
    all_goals simp_all
  · unfold Client.GetTagMetadata DecodedFrom
    simp only []
    repeat' split
    all_goals simp_all

theorem Marshal_snd (m : List (String × String)) : (Marshal m).2 = none := rfl

theorem Marshal_eq (m : List (String × String)) : Marshal m = ((Marshal m).1, none) := rfl

/-- C1: a status 200 answer whose body decodes to an envelope with success = false
makes each of the ten request-issuing methods return a non-nil error together with
the zero value, never a successful result: the error is the method's failure message
followed by the body when the decoder accepted the body, and the decoder's own error
when it did not.  GetPackageIDList and GetResourceID return that same error of
GetPackageList and GetPackageMetadata, with the nil list and the empty string. -/
theorem success_false_is_error (ckan : Client) (env : Env) (query : List (String × String))
    (sort : String) (limit : Int) (id : String) :
    (∀ body decodeErr, AnsweredSuccessFalse (env.Get (ckan.BaseURL ++ "/action/package_search?" ++
        (setSearchParams query sort limit).Encode))
        env.UnmarshalPackageSearch {} (fun r => r.Success) body decodeErr →
      (ckan.SearchPackages env query sort limit).err
        = some (decodeErr.getD ("Failed to search packages: " ++ body)) ∧
      (ckan.SearchPackages env query sort limit).value = {}) ∧
    (∀ body decodeErr, AnsweredSuccessFalse (env.Get (ckan.BaseURL ++
        "/action/resource_search?" ++ (setSearchParams query sort limit).Encode))
        env.UnmarshalResourceSearch {} (fun r => r.Success) body decodeErr →
      (ckan.SearchResources env query sort limit).err
        = some (decodeErr.getD ("Failed to search resources: " ++ body)) ∧
      (ckan.SearchResources env query sort limit).value = {}) ∧
    (∀ body decodeErr, AnsweredSuccessFalse (env.Get (ckan.BaseURL ++
        "/api/3/action/recently_changed_packages_activity_list"))
        env.UnmarshalRecentActivity {} (fun r => r.Success) body decodeErr →
      (ckan.RecentlyChangedPackagesActivityList env).err
        = some (decodeErr.getD ("Failed to get recently changed packages activity list: " ++
            body)) ∧
      (ckan.RecentlyChangedPackagesActivityList env).value = {}) ∧
    (∀ body decodeErr, AnsweredSuccessFalse (env.Get (ckan.BaseURL ++ "/action/package_list?" ++
        (setSearchParams [] sort limit).Encode))
        env.UnmarshalPackageID {} (fun r => r.Success) body decodeErr →
      (ckan.GetPackageList env sort limit).err
        = some (decodeErr.getD ("Failed to get package list: " ++ body)) ∧
      (ckan.GetPackageList env sort limit).value = {}) ∧
    (∀ body decodeErr, AnsweredSuccessFalse (env.Get (ckan.BaseURL ++
        "/action/package_show?id=" ++ id))
        env.UnmarshalPackageMetadata {} (fun r => r.Success) body decodeErr →
      (ckan.GetPackageMetadata env id).err
        = some (decodeErr.getD ("Failed to get package metadata: " ++ body)) ∧
      (ckan.GetPackageMetadata env id).value = {}) ∧
    (∀ body decodeErr, AnsweredSuccessFalse (env.Post (ckan.BaseURL ++
        "/action/resource_show") "application/json" (Marshal [("id", id)]).1)
        env.UnmarshalResourceMetadata {} (fun r => r.Success) body decodeErr →
      (ckan.GetResourceMetadata env id).err
        = some (decodeErr.getD ("Failed to get resource metadata: " ++ body)) ∧
      (ckan.GetResourceMetadata env id).value = {}) ∧
    (∀ body decodeErr, AnsweredSuccessFalse (env.Get (ckan.BaseURL ++ "/action/group_list?" ++
        (setSearchParams [] sort limit).Encode))
        env.UnmarshalGroupList {} (fun r => r.Success) body decodeErr →
      (ckan.GetGroupList env sort limit).err
        = some (decodeErr.getD ("Failed to get group list: " ++ body)) ∧
      (ckan.GetGroupList env sort limit).value = {}) ∧
    (∀ body decodeErr, AnsweredSuccessFalse (env.Get (ckan.BaseURL ++ "/action/group_show?id=" ++
        id))
        env.UnmarshalGroupMetadata {} (fun r => r.Success) body decodeErr →
      (ckan.GetGroupMetadata env id).err
        = some (decodeErr.getD ("Failed to get group metadata: " ++ body)) ∧
      (ckan.GetGroupMetadata env id).value = {}) ∧
    (∀ body decodeErr, AnsweredSuccessFalse (env.Get (ckan.BaseURL ++ "/action/tag_list?" ++
        (setSearchParams [] sort limit).Encode))
        env.UnmarshalTagList {} (fun r => r.Success) body decodeErr →
      (ckan.GetTagList env sort limit).err
        = some (decodeErr.getD ("Failed to get tag list: " ++ body)) ∧
      (ckan.GetTagList env sort limit).value = {}) ∧
    (∀ body decodeErr, AnsweredSuccessFalse (env.Get (ckan.BaseURL ++ "/action/tag_show?id=" ++
        id))
        env.UnmarshalTagMetadata {} (fun r => r.Success) body decodeErr →
      (ckan.GetTagMetadata env id).err
        = some (decodeErr.getD ("Failed to get tag metadata: " ++ body)) ∧
      (ckan.GetTagMetadata env id).value = {}) ∧
    (∀ body decodeErr, AnsweredSuccessFalse (env.Get (ckan.BaseURL ++ "/action/package_list?" ++
        (setSearchParams [] sort limit).Encode))
        env.UnmarshalPackageID {} (fun r => r.Success) body decodeErr →
      (ckan.GetPackageIDList env sort limit).err
        = some (decodeErr.getD ("Failed to get package list: " ++ body)) ∧
      (ckan.GetPackageIDList env sort limit).value = none) ∧
    (∀ body decodeErr, AnsweredSuccessFalse (env.Get (ckan.BaseURL ++
        "/action/package_show?id=" ++ id))
        env.UnmarshalPackageMetadata {} (fun r => r.Success) body decodeErr →
      (ckan.GetResourceID env id).err
        = some (decodeErr.getD ("Failed to get package metadata: " ++ body)) ∧
      (ckan.GetResourceID env id).value = "") := by
  refine ⟨?_, ?_, ?_, ?_, ?_, ?_, ?_, ?_, ?_, ?_, ?_, ?_⟩
  · rintro body decodeErr ⟨resp, res, hanswer, hstatus, hbody, hdecode, hflag⟩
    simp at hflag
    cases decodeErr <;> simp [Client.SearchPackages, hanswer, hstatus, hbody, hdecode, hflag]
  · rintro body decodeErr ⟨resp, res, hanswer, hstatus, hbody, hdecode, hflag⟩
    simp at hflag
    cases decodeErr <;> simp [Client.SearchResources, hanswer, hstatus, hbody, hdecode, hflag]
  · rintro body decodeErr ⟨resp, res, hanswer, hstatus, hbody, hdecode, hflag⟩
    simp at hflag
    cases decodeErr <;> simp [Client.RecentlyChangedPackagesActivityList, hanswer, hstatus, hbody,
        hdecode, hflag]
  · rintro body decodeErr ⟨resp, res, hanswer, hstatus, hbody, hdecode, hflag⟩
    simp at hflag
    cases decodeErr <;> simp [Client.GetPackageList, hanswer, hstatus, hbody, hdecode, hflag]
  · rintro body decodeErr ⟨resp, res, hanswer, hstatus, hbody, hdecode, hflag⟩
    simp at hflag
    cases decodeErr <;> simp [Client.GetPackageMetadata, hanswer, hstatus, hbody, hdecode, hflag]
  · rintro body decodeErr ⟨resp, res, hanswer, hstatus, hbody, hdecode, hflag⟩
    simp at hflag
    unfold Client.GetResourceMetadata
    simp only []
    rw [Marshal_eq [("id", id)]]
    cases decodeErr <;> simp [hanswer, hstatus, hbody, hdecode, hflag]
  · rintro body decodeErr ⟨resp, res, hanswer, hstatus, hbody, hdecode, hflag⟩
    simp at hflag
    cases decodeErr <;> simp [Client.GetGroupList, hanswer, hstatus, hbody, hdecode, hflag]
  · rintro body decodeErr ⟨resp, res, hanswer, hstatus, hbody, hdecode, hflag⟩
    simp at hflag
    cases decodeErr <;> simp [Client.GetGroupMetadata, hanswer, hstatus, hbody, hdecode, hflag]
  · rintro body decodeErr ⟨resp, res, hanswer, hstatus, hbody, hdecode, hflag⟩
    simp at hflag
    cases decodeErr <;> simp [Client.GetTagList, hanswer, hstatus, hbody, hdecode, hflag]
  · rintro body decodeErr ⟨resp, res, hanswer, hstatus, hbody, hdecode, hflag⟩
    simp at hflag
    cases decodeErr <;> simp [Client.GetTagMetadata, hanswer, hstatus, hbody, hdecode, hflag]
  · rintro body decodeErr ⟨resp, res, hanswer, hstatus, hbody, hdecode, hflag⟩
    simp at hflag
    cases decodeErr <;> simp [Client.GetPackageIDList, Client.GetPackageList, hanswer, hstatus,
        hbody, hdecode, hflag]
  · rintro body decodeErr ⟨resp, res, hanswer, hstatus, hbody, hdecode, hflag⟩
    simp at hflag
    cases decodeErr <;> simp [Client.GetResourceID, Client.GetPackageMetadata, hanswer, hstatus,
        hbody, hdecode, hflag]

/-- C2: when the transport answers with a status outside 200..299, each of the ten
request-issuing methods returns a non-nil error and its log holds no call of
json.Unmarshal: the body is never decoded, whatever it contains and whatever the
decoders would have made of it. -/
theorem non_2xx_is_error_without_decoding (ckan : Client) (env : Env)
    (query : List (String × String)) (sort : String) (limit : Int) (id : String) :
    (AnsweredNon2xx (env.Get (ckan.BaseURL ++ "/action/package_search?" ++
        (setSearchParams query sort limit).Encode)) →
      (ckan.SearchPackages env query sort limit).err ≠ none ∧
      (ckan.SearchPackages env query sort limit).log.filter Event.isUnmarshal = []) ∧
    (AnsweredNon2xx (env.Get (ckan.BaseURL ++ "/action/resource_search?" ++
        (setSearchParams query sort limit).Encode)) →
      (ckan.SearchResources env query sort limit).err ≠ none ∧
      (ckan.SearchResources env query sort limit).log.filter Event.isUnmarshal = []) ∧
    (AnsweredNon2xx (env.Get (ckan.BaseURL ++
        "/api/3/action/recently_changed_packages_activity_list")) →
      (ckan.RecentlyChangedPackagesActivityList env).err ≠ none ∧
      (ckan.RecentlyChangedPackagesActivityList env).log.filter Event.isUnmarshal = []) ∧
    (AnsweredNon2xx (env.Get (ckan.BaseURL ++ "/action/package_list?" ++
        (setSearchParams [] sort limit).Encode)) →
      (ckan.GetPackageList env sort limit).err ≠ none ∧
      (ckan.GetPackageList env sort limit).log.filter Event.isUnmarshal = []) ∧
    (AnsweredNon2xx (env.Get (ckan.BaseURL ++ "/action/package_show?id=" ++ id)) →
      (ckan.GetPackageMetadata env id).err ≠ none ∧
      (ckan.GetPackageMetadata env id).log.filter Event.isUnmarshal = []) ∧
    (AnsweredNon2xx (env.Post (ckan.BaseURL ++
        "/action/resource_show") "application/json" (Marshal [("id", id)]).1) →
      (ckan.GetResourceMetadata env id).err ≠ none ∧
      (ckan.GetResourceMetadata env id).log.filter Event.isUnmarshal = []) ∧
    (AnsweredNon2xx (env.Get (ckan.BaseURL ++ "/action/group_list?" ++
        (setSearchParams [] sort limit).Encode)) →
      (ckan.GetGroupList env sort limit).err ≠ none ∧
      (ckan.GetGroupList env sort limit).log.filter Event.isUnmarshal = []) ∧
    (AnsweredNon2xx (env.Get (ckan.BaseURL ++ "/action/group_show?id=" ++ id)) →
      (ckan.GetGroupMetadata env id).err ≠ none ∧
      (ckan.GetGroupMetadata env id).log.filter Event.isUnmarshal = []) ∧
    (AnsweredNon2xx (env.Get (ckan.BaseURL ++ "/action/tag_list?" ++
        (setSearchParams [] sort limit).Encode)) →
      (ckan.GetTagList env sort limit).err ≠ none ∧
      (ckan.GetTagList env sort limit).log.filter Event.isUnmarshal = []) ∧
    (AnsweredNon2xx (env.Get (ckan.BaseURL ++ "/action/tag_show?id=" ++ id)) →
      (ckan.GetTagMetadata env id).err ≠ none ∧
      (ckan.GetTagMetadata env id).log.filter Event.isUnmarshal = []) := by
  refine ⟨?_, ?_, ?_, ?_, ?_, ?_, ?_, ?_, ?_, ?_⟩
  · rintro ⟨resp, hanswer, hstatus⟩
    have hne : resp.StatusCode ≠ 200 := by omega
    unfold Client.SearchPackages
    simp only [hanswer, hne, Marshal_snd]
    repeat' split
    all_goals simp_all [Event.isUnmarshal]
  · rintro ⟨resp, hanswer, hstatus⟩
    have hne : resp.StatusCode ≠ 200 := by omega
    unfold Client.SearchResources
    simp only [hanswer, hne, Marshal_snd]
    repeat' split
    all_goals simp_all [Event.isUnmarshal]
  · rintro ⟨resp, hanswer, hstatus⟩
    have hne : resp.StatusCode ≠ 200 := by omega
    unfold Client.RecentlyChangedPackagesActivityList
    simp only [hanswer, hne, Marshal_snd]
    repeat' split
    all_goals simp_all [Event.isUnmarshal]
  · rintro ⟨resp, hanswer, hstatus⟩
    have hne : resp.StatusCode ≠ 200 := by omega
    unfold Client.GetPackageList
    simp only [hanswer, hne, Marshal_snd]
    repeat' split
    all_goals simp_all [Event.isUnmarshal]
  · rintro ⟨resp, hanswer, hstatus⟩
    have hne : resp.StatusCode ≠ 200 := by omega
    unfold Client.GetPackageMetadata
    simp only [hanswer, hne, Marshal_snd]
    repeat' split
    all_goals simp_all [Event.isUnmarshal]
  · rintro ⟨resp, hanswer, hstatus⟩
    have hne : resp.StatusCode ≠ 200 := by omega
    unfold Client.GetResourceMetadata
    simp only [hanswer, hne, Marshal_snd]
    repeat' split
    all_goals simp_all [Event.isUnmarshal]
  · rintro ⟨resp, hanswer, hstatus⟩
    have hne : resp.StatusCode ≠ 200 := by omega
    unfold Client.GetGroupList
    simp only [hanswer, hne, Marshal_snd]
    repeat' split
    all_goals simp_all [Event.isUnmarshal]
  · rintro ⟨resp, hanswer, hstatus⟩
    have hne : resp.StatusCode ≠ 200 := by omega
    unfold Client.GetGroupMetadata
    simp only [hanswer, hne, Marshal_snd]
    repeat' split
    all_goals simp_all [Event.isUnmarshal]
  · rintro ⟨resp, hanswer, hstatus⟩
    have hne : resp.StatusCode ≠ 200 := by omega
    unfold Client.GetTagList
    simp only [hanswer, hne, Marshal_snd]
    repeat' split
    all_goals simp_all [Event.isUnmarshal]
  · rintro ⟨resp, hanswer, hstatus⟩
    have hne : resp.StatusCode ≠ 200 := by omega
    unfold Client.GetTagMetadata
    simp only [hanswer, hne, Marshal_snd]
    repeat' split
    all_goals simp_all [Event.isUnmarshal]

theorem Contains_append_right (a b : String) : Contains (a ++ b) b := by
  unfold Contains
  have h : (a ++ b).toList = a.toList ++ b.toList := by
    simp [String.toList, String.data_append]
  rw [h]
  exact (List.suffix_append _ _).isInfix

/-- Status errors of the nine methods that read the body first: on an answer with a
status outside 200..299 the error is the failure message followed by the raw body,
so it contains the body. -/
theorem status_error_carries_body (ckan : Client) (env : Env)
    (query : List (String × String)) (sort : String) (limit : Int) (id : String) :
    (∀ body, AnsweredNon2xxWithBody (env.Get (ckan.BaseURL ++ "/action/package_search?" ++
        (setSearchParams query sort limit).Encode)) body →
      (ckan.SearchPackages env query sort limit).err = some ("Failed to search packages: " ++
          body) ∧
      Contains ("Failed to search packages: " ++ body) body) ∧
    (∀ body, AnsweredNon2xxWithBody (env.Get (ckan.BaseURL ++ "/action/resource_search?" ++
        (setSearchParams query sort limit).Encode)) body →
      (ckan.SearchResources env query sort limit).err = some ("Failed to search resources: " ++
          body) ∧
      Contains ("Failed to search resources: " ++ body) body) ∧
    (∀ body, AnsweredNon2xxWithBody (env.Get (ckan.BaseURL ++ "/action/package_list?" ++
        (setSearchParams [] sort limit).Encode)) body →
      (ckan.GetPackageList env sort limit).err = some ("Failed to get package list: " ++ body) ∧
      Contains ("Failed to get package list: " ++ body) body) ∧
    (∀ body, AnsweredNon2xxWithBody (env.Get (ckan.BaseURL ++ "/action/package_show?id=" ++
        id)) body →
      (ckan.GetPackageMetadata env id).err = some ("Failed to get package metadata: " ++ body) ∧
      Contains ("Failed to get package metadata: " ++ body) body) ∧
    (∀ body, AnsweredNon2xxWithBody (env.Post (ckan.BaseURL ++
        "/action/resource_show") "application/json" (Marshal [("id", id)]).1) body →
      (ckan.GetResourceMetadata env id).err = some ("Failed to get resource metadata: " ++ body) ∧
      Contains ("Failed to get resource metadata: " ++ body) body) ∧
    (∀ body, AnsweredNon2xxWithBody (env.Get (ckan.BaseURL ++ "/action/group_list?" ++
        (setSearchParams [] sort limit).Encode)) body →
      (ckan.GetGroupList env sort limit).err = some ("Failed to get group list: " ++ body) ∧
      Contains ("Failed to get group list: " ++ body) body) ∧
    (∀ body, AnsweredNon2xxWithBody (env.Get (ckan.BaseURL ++ "/action/group_show?id=" ++
        id)) body →
      (ckan.GetGroupMetadata env id).err = some ("Failed to get group metadata: " ++ body) ∧
      Contains ("Failed to get group metadata: " ++ body) body) ∧
    (∀ body, AnsweredNon2xxWithBody (env.Get (ckan.BaseURL ++ "/action/tag_list?" ++
        (setSearchParams [] sort limit).Encode)) body →
      (ckan.GetTagList env sort limit).err = some ("Failed to get tag list: " ++ body) ∧
      Contains ("Failed to get tag list: " ++ body) body) ∧
    (∀ body, AnsweredNon2xxWithBody (env.Get (ckan.BaseURL ++ "/action/tag_show?id=" ++
        id)) body →
      (ckan.GetTagMetadata env id).err = some ("Failed to get tag metadata: " ++ body) ∧
      Contains ("Failed to get tag metadata: " ++ body) body) := by
  refine ⟨?_, ?_, ?_, ?_, ?_, ?_, ?_, ?_, ?_⟩
  · rintro body ⟨resp, hanswer, hstatus, hbody⟩
    have hne : resp.StatusCode ≠ 200 := by omega
    refine ⟨?_, Contains_append_right _ _⟩
    simp [Client.SearchPackages, hanswer, hne, hbody]
  · rintro body ⟨resp, hanswer, hstatus, hbody⟩
    have hne : resp.StatusCode ≠ 200 := by omega
    refine ⟨?_, Contains_append_right _ _⟩
    simp [Client.SearchResources, hanswer, hne, hbody]
  · rintro body ⟨resp, hanswer, hstatus, hbody⟩
    have hne : resp.StatusCode ≠ 200 := by omega
    refine ⟨?_, Contains_append_right _ _⟩
    simp [Client.GetPackageList, hanswer, hne, hbody]
  · rintro body ⟨resp, hanswer, hstatus, hbody⟩
    have hne : resp.StatusCode ≠ 200 := by omega
    refine ⟨?_, Contains_append_right _ _⟩
    simp [Client.GetPackageMetadata, hanswer, hne, hbody]
  · rintro body ⟨resp, hanswer, hstatus, hbody⟩
    have hne : resp.StatusCode ≠ 200 := by omega
    refine ⟨?_, Contains_append_right _ _⟩
    unfold Client.GetResourceMetadata
    simp only []
    rw [Marshal_eq [("id", id)]]
    simp [hanswer, hne, hbody]
  · rintro body ⟨resp, hanswer, hstatus, hbody⟩
    have hne : resp.StatusCode ≠ 200 := by omega
    refine ⟨?_, Contains_append_right _ _⟩
    simp [Client.GetGroupList, hanswer, hne, hbody]
  · rintro body ⟨resp, hanswer, hstatus, hbody⟩
    have hne : resp.StatusCode ≠ 200 := by omega
    refine ⟨?_, Contains_append_right _ _⟩
    simp [Client.GetGroupMetadata, hanswer, hne, hbody]
  · rintro body ⟨resp, hanswer, hstatus, hbody⟩
    have hne : resp.StatusCode ≠ 200 := by omega
    refine ⟨?_, Contains_append_right _ _⟩
    simp [Client.GetTagList, hanswer, hne, hbody]
  · rintro body ⟨resp, hanswer, hstatus, hbody⟩
    have hne : resp.StatusCode ≠ 200 := by omega
    refine ⟨?_, Contains_append_right _ _⟩
    simp [Client.GetTagMetadata, hanswer, hne, hbody]

set_option maxRecDepth 8000 in
/-- C3, the code at the failing input: against a server answering 500 with the body
"boom", RecentlyChangedPackagesActivityList returns an error quoting the status line;
the message does not contain the body, and the body is not even read.  SearchPackages
against the same server returns an error ending in the body. -/
theorem RecentlyChangedPackagesActivityList_status_error_omits_body :
    (Client.RecentlyChangedPackagesActivityList ⟨"http://ckan.example"⟩ env500).err
      = some "Failed to get recently changed packages activity list: 500 Internal Server Error" ∧
    ¬ Contains
      "Failed to get recently changed packages activity list: 500 Internal Server Error" "boom" ∧
    (Client.RecentlyChangedPackagesActivityList ⟨"http://ckan.example"⟩ env500).log
      = [.httpGet "http://ckan.example/api/3/action/recently_changed_packages_activity_list"] ∧
    (Client.SearchPackages ⟨"http://ckan.example"⟩ env500 [] "" 0).err
      = some "Failed to search packages: boom" := by
  refine ⟨rfl, ?_, rfl, rfl⟩
  decide

/-! ## The derived operations -/

theorem GetResourceID.loop_spec (l : List Resource) :
    (∃ pre r post, l = pre ++ r :: post ∧ (∀ x ∈ pre, x.ID = "") ∧ r.ID ≠ "" ∧
      (GetResourceID.loop l).1 = r.ID) ∨
    ((∀ x ∈ l, x.ID = "") ∧ (GetResourceID.loop l).1 = "") := by
  induction l with
  | nil => exact Or.inr ⟨by simp, rfl⟩
  | cons a rest ih =>
    by_cases ha : a.ID = ""
    · have hstep : GetResourceID.loop (a :: rest) = GetResourceID.loop rest := by
        simp [GetResourceID.loop, ha]
      rcases ih with ⟨pre, r, post, hl, hpre, hr, hv⟩ | ⟨hall, hv⟩
      · refine Or.inl ⟨a :: pre, r, post, by simp [hl], ?_, hr, by rw [hstep, hv]⟩
        intro x hx
        rcases List.mem_cons.mp hx with hx | hx
        · rw [hx]
          exact ha
        · exact hpre x hx
      · refine Or.inr ⟨?_, by rw [hstep, hv]⟩
        intro x hx
        rcases List.mem_cons.mp hx with hx | hx
        · rw [hx]
          exact ha
        · exact hall x hx
    · refine Or.inl ⟨[], a, rest, rfl, by simp, ha, ?_⟩
      simp [GetResourceID.loop, ha]

/-- C6: when GetPackageMetadata fetches the package without error, GetResourceID
returns an error exactly when the resources sequence is empty, and then the empty
string with it; on a non-empty sequence it returns no error and the ID of the first
resource, in sequence order, whose ID is non-empty, or the empty string when every
resource has an empty ID. -/
theorem GetResourceID_first_nonempty_id (ckan : Client) (env : Env) (packageID : String)
    (hfetch : (ckan.GetPackageMetadata env packageID).err = none) :
    ((ckan.GetResourceID env packageID).err ≠ none ↔
      (ckan.GetPackageMetadata env packageID).value.Result.Resources = []) ∧
    ((ckan.GetPackageMetadata env packageID).value.Result.Resources = [] →
      (ckan.GetResourceID env packageID).value = "") ∧
    ((ckan.GetPackageMetadata env packageID).value.Result.Resources ≠ [] →
      (ckan.GetResourceID env packageID).err = none ∧
      ((∃ pre r post,
          (ckan.GetPackageMetadata env packageID).value.Result.Resources = pre ++ r :: post ∧
          (∀ x ∈ pre, x.ID = "") ∧ r.ID ≠ "" ∧
          (ckan.GetResourceID env packageID).value = r.ID) ∨
        ((∀ x ∈ (ckan.GetPackageMetadata env packageID).value.Result.Resources, x.ID = "") ∧
          (ckan.GetResourceID env packageID).value = ""))) := by
  generalize hres : (ckan.GetPackageMetadata env packageID).value.Result.Resources = resources
  by_cases hempty : resources = []
  · simp [Client.GetResourceID, hfetch, hres, hempty]
  · have hspec := GetResourceID.loop_spec resources
    simpa [Client.GetResourceID, hfetch, hres, hempty, GetResourceID.loop_err] using hspec

/-- Witness for C6: metadata is fetched, and the two resources with IDs "" and "r2"
give "r2". -/
theorem GetResourceID_first_nonempty_id_witness :
    (Client.GetPackageMetadata ⟨"http://ckan.example"⟩ envTwoResources "p").err = none ∧
    (Client.GetResourceID ⟨"http://ckan.example"⟩ envTwoResources "p").value = "r2" ∧
    (Client.GetResourceID ⟨"http://ckan.example"⟩ envTwoResources "p").err = none ∧
    (((Client.GetResourceID ⟨"http://ckan.example"⟩ envTwoResources "p").err ≠ none ↔
      (Client.GetPackageMetadata ⟨"http://ckan.example"⟩
        envTwoResources "p").value.Result.Resources = [])) :=
  ⟨rfl, rfl, rfl,
    (GetResourceID_first_nonempty_id ⟨"http://ckan.example"⟩ envTwoResources "p" rfl).1⟩

/-- C7: when GetPackageList succeeds with the results p1..pn, GetPackageIDList returns
no error and exactly the list of their IDs, in the same order and of the same length,
duplicates and empty IDs included; when GetPackageList fails, GetPackageIDList returns
that same error and the nil list. -/
theorem GetPackageIDList_projects_ids (ckan : Client) (env : Env) (sort : String)
    (limit : Int) :
    ((ckan.GetPackageList env sort limit).err = none →
      (ckan.GetPackageIDList env sort limit).err = none ∧
      (ckan.GetPackageIDList env sort limit).value
        = some ((ckan.GetPackageList env sort limit).value.Result.Results.map (fun p => p.ID))) ∧
    (∀ e, (ckan.GetPackageList env sort limit).err = some e →
      (ckan.GetPackageIDList env sort limit).err = some e ∧
      (ckan.GetPackageIDList env sort limit).value = none) := by
  constructor
  · intro h
    simp only [Client.GetPackageIDList, h, foldl_snoc_eq_map]
    simp
  · intro e h
    simp [Client.GetPackageIDList, h]

/-- Witness for C7: the package list with IDs "a", "b", "" and "a" is projected to
exactly these IDs, and a failing package list gives its error and the nil list. -/
theorem GetPackageIDList_projects_ids_witness :
    (Client.GetPackageIDList ⟨"http://ckan.example"⟩ envFourPackages "" 0).value
      = some ["a", "b", "", "a"] ∧
    (Client.GetPackageIDList ⟨"http://ckan.example"⟩ envFourPackages "" 0).err = none ∧
    (Client.GetPackageIDList ⟨"http://ckan.example"⟩ env500 "" 0).err
      = some "Failed to get package list: boom" ∧
    (Client.GetPackageIDList ⟨"http://ckan.example"⟩ env500 "" 0).value = none :=
  ⟨((GetPackageIDList_projects_ids ⟨"http://ckan.example"⟩ envFourPackages "" 0).1 rfl).2,
    ((GetPackageIDList_projects_ids ⟨"http://ckan.example"⟩ envFourPackages "" 0).1 rfl).1,
    ((GetPackageIDList_projects_ids ⟨"http://ckan.example"⟩ env500 "" 0).2 _ rfl).1,
    ((GetPackageIDList_projects_ids ⟨"http://ckan.example"⟩ env500 "" 0).2 _ rfl).2⟩

/-! ## The requests issued -/

theorem Marshal_id (id : String) :
    (Marshal [("id", id)]).1 = "\x7b\x22id\x22:" ++ jsonString id ++ "\x7d" := by
  have hkey : jsonString "id" = "\x22id\x22" := by decide
  apply String.ext
  simp [Marshal, sortKeys, insertKey, Join, hkey, String.data_append]

theorem char_eq_ofNat (c : Char) (n : Nat) (h : c.toNat = n) : c = Char.ofNat n := by
  rw [← h, Char.ofNat_toNat]

set_option maxRecDepth 4000 in
theorem readJsonChars_escape_small (n : Nat) (h : n < 93) (tail acc : List Char) :
    readJsonChars (jsonEscapeChar (Char.ofNat n) ++ tail) .normal acc
      = readJsonChars tail .normal (Char.ofNat n :: acc) := by
  interval_cases n <;> rfl

theorem readJsonChars_escape (c : Char) (tail acc : List Char) :
    readJsonChars (jsonEscapeChar c ++ tail) .normal acc
      = readJsonChars tail .normal (c :: acc) := by
  by_cases hsmall : c.toNat < 93
  · have hc := char_eq_ofNat c c.toNat rfl
    rw [hc]
    exact readJsonChars_escape_small c.toNat hsmall tail acc
  · by_cases h1 : c.toNat = 8232
    · rw [char_eq_ofNat c 8232 h1]
      rfl
    · by_cases h2 : c.toNat = 8233
      · rw [char_eq_ofNat c 8233 h2]
        rfl
      · have h34 : c.toNat ≠ 34 := by omega
        have h92 : c.toNat ≠ 92 := by omega
        have h8 : c.toNat ≠ 8 := by omega
        have h12 : c.toNat ≠ 12 := by omega
        have h10 : c.toNat ≠ 10 := by omega
        have h13 : c.toNat ≠ 13 := by omega
        have h9 : c.toNat ≠ 9 := by omega
        have h32 : ¬ c.toNat < 32 := by omega
        have h60 : c.toNat ≠ 60 := by omega
        have h62 : c.toNat ≠ 62 := by omega
        have h38 : c.toNat ≠ 38 := by omega
        simp [jsonEscapeChar, readJsonChars, h34, h92, h8, h12, h10, h13, h9, h32, h60, h62,
          h38, h1, h2]

theorem readJsonChars_jsonString (s tail : List Char) : ∀ acc : List Char,
    readJsonChars (s.flatMap jsonEscapeChar ++ Char.ofNat 34 :: tail) .normal acc
      = some (acc.reverse ++ s, tail) := by
  induction s with
  | nil =>
    intro acc
    simp [readJsonChars]
  | cons c rest ih =>
    intro acc
    rw [List.flatMap_cons, List.append_assoc, readJsonChars_escape, ih]
    simp

theorem readJsonObject1_Marshal_id (id : String) :
    readJsonObject1 (Marshal [("id", id)]).1 = some ("id", id) := by
  have hlist : ((Marshal [("id", id)]).1).toList
      = Char.ofNat 123 :: Char.ofNat 34 :: 'i' :: 'd' :: Char.ofNat 34 :: ':' :: Char.ofNat 34 ::
          (id.data.flatMap jsonEscapeChar ++ Char.ofNat 34 :: [Char.ofNat 125]) := by
    rw [Marshal_id]
    simp [String.toList, String.data_append, jsonString]
  have hname : readJsonChars ('i' :: 'd' :: Char.ofNat 34 :: ':' :: Char.ofNat 34 ::
      (id.data.flatMap jsonEscapeChar ++ Char.ofNat 34 :: [Char.ofNat 125])) .normal []
      = some (['i', 'd'], ':' :: Char.ofNat 34 ::
          (id.data.flatMap jsonEscapeChar ++ Char.ofNat 34 :: [Char.ofNat 125])) := rfl
  have hvalue := readJsonChars_jsonString id.data [Char.ofNat 125] []
  unfold readJsonObject1
  rw [hlist]
  simp [readJsonString, hname, hvalue]

/-- C8: for every base URL and identifier, GetResourceMetadata issues exactly one
request, a POST to BaseURL ++ "/action/resource_show" (no query string is appended)
with content type application/json, whose body is the JSON object with the single
member "id" : id: read back by the JSON grammar, the body is an object with exactly
the member named id whose value is the identifier, whatever characters it holds.
GetPackageMetadata, GetGroupMetadata and GetTagMetadata each issue exactly one
request, a GET (which has no body) to BaseURL ++ "/action/package_show?id=" ++ id,
BaseURL ++ "/action/group_show?id=" ++ id and BaseURL ++ "/action/tag_show?id=" ++ id.
Identifiers are strings of characters; a Go string that is not well-formed UTF-8 has
no counterpart here. -/
theorem metadata_requests (ckan : Client) (env : Env) (id : String) :
    (ckan.GetResourceMetadata env id).log.filter Event.isRequest
      = [.httpPost (ckan.BaseURL ++ "/action/resource_show") "application/json"
          ("\x7b\x22id\x22:" ++ jsonString id ++ "\x7d")] ∧
    (ckan.GetPackageMetadata env id).log.filter Event.isRequest
      = [.httpGet (ckan.BaseURL ++ "/action/package_show?id=" ++ id)] ∧
    (ckan.GetGroupMetadata env id).log.filter Event.isRequest
      = [.httpGet (ckan.BaseURL ++ "/action/group_show?id=" ++ id)] ∧
    (ckan.GetTagMetadata env id).log.filter Event.isRequest
      = [.httpGet (ckan.BaseURL ++ "/action/tag_show?id=" ++ id)] ∧
    (∃ body, (ckan.GetResourceMetadata env id).log.filter Event.isRequest
        = [.httpPost (ckan.BaseURL ++ "/action/resource_show") "application/json" body] ∧
      readJsonObject1 body = some ("id", id)) := by
  have hpost : (ckan.GetResourceMetadata env id).log.filter Event.isRequest
      = [.httpPost (ckan.BaseURL ++ "/action/resource_show") "application/json"
          (Marshal [("id", id)]).1] := by
    unfold Client.GetResourceMetadata
    simp only []
    rw [Marshal_eq [("id", id)]]
    simp only []
    repeat' split
    all_goals simp [Event.isRequest]
  refine ⟨?_, ?_, ?_, ?_, ?_⟩
  · rw [hpost, Marshal_id]
  · unfold Client.GetPackageMetadata
    simp only []
    repeat' split
    all_goals simp [Event.isRequest]
  · unfold Client.GetGroupMetadata
    simp only []
    repeat' split
    all_goals simp [Event.isRequest]
  · unfold Client.GetTagMetadata
    simp only []
    repeat' split
    all_goals simp [Event.isRequest]
  · exact ⟨_, hpost, readJsonObject1_Marshal_id id⟩

/-- Witness for C8: for the identifier made of a, a quotation mark, b and a less-than
sign, the single request of GetResourceMetadata is the POST whose body escapes the
quotation mark and the less-than sign, and that body reads back as the object with
the member id holding the identifier; GetPackageMetadata sends its identifier
unchanged in the query string of a GET. -/
theorem metadata_requests_witness :
    (Client.GetResourceMetadata ⟨"http://ckan.example"⟩ env500 "a\x22b<").log.filter
        Event.isRequest
      = [.httpPost "http://ckan.example/action/resource_show" "application/json"
          "\x7b\x22id\x22:\x22a\x5c\x22b\x5cu003c\x22\x7d"] ∧
    readJsonObject1 "\x7b\x22id\x22:\x22a\x5c\x22b\x5cu003c\x22\x7d" = some ("id", "a\x22b<") ∧
    (Client.GetPackageMetadata ⟨"http://ckan.example"⟩ env500 "p 1").log.filter Event.isRequest
      = [.httpGet "http://ckan.example/action/package_show?id=p 1"] :=
  ⟨(metadata_requests ⟨"http://ckan.example"⟩ env500 "a\x22b<").1.trans (by decide),
    by decide,
    (metadata_requests ⟨"http://ckan.example"⟩ env500 "p 1").2.1.trans (by decide)⟩

/-- C9: with base URL B, the single request of SearchPackages, SearchResources,
GetPackageList, GetPackageMetadata, GetGroupList, GetGroupMetadata, GetTagList and
GetTagMetadata is a GET to B ++ "/action/" ++ endpoint ++ "?" ++ query string, and that
of GetResourceMetadata a POST to B ++ "/action/" ++ "resource_show", the endpoints
being package_search, resource_search, package_list, package_show, group_list,
group_show, tag_list, tag_show; RecentlyChangedPackagesActivityList instead sends its
GET to B ++ "/api/3/action/recently_changed_packages_activity_list", so that a base
URL that already ends in "/api/3" gets the prefix a second time. -/
theorem request_targets (ckan : Client) (env : Env) (query : List (String × String))
    (sort : String) (limit : Int) (id : String) :
    ((ckan.SearchPackages env query sort limit).log.filter Event.isRequest
      = [.httpGet (ckan.BaseURL ++ "/action/" ++ "package_search" ++ "?" ++
          (setSearchParams query sort limit).Encode)]) ∧
    ((ckan.SearchResources env query sort limit).log.filter Event.isRequest
      = [.httpGet (ckan.BaseURL ++ "/action/" ++ "resource_search" ++ "?" ++
          (setSearchParams query sort limit).Encode)]) ∧
    ((ckan.GetPackageList env sort limit).log.filter Event.isRequest
      = [.httpGet (ckan.BaseURL ++ "/action/" ++ "package_list" ++ "?" ++
          (setSearchParams [] sort limit).Encode)]) ∧
    ((ckan.GetPackageMetadata env id).log.filter Event.isRequest
      = [.httpGet (ckan.BaseURL ++ "/action/" ++ "package_show" ++ "?" ++ ("id=" ++ id))]) ∧
    ((ckan.GetResourceMetadata env id).log.filter Event.isRequest
      = [.httpPost (ckan.BaseURL ++ "/action/" ++ "resource_show") "application/json"
          (Marshal [("id", id)]).1]) ∧
    ((ckan.GetGroupList env sort limit).log.filter Event.isRequest
      = [.httpGet (ckan.BaseURL ++ "/action/" ++ "group_list" ++ "?" ++
          (setSearchParams [] sort limit).Encode)]) ∧
    ((ckan.GetGroupMetadata env id).log.filter Event.isRequest
      = [.httpGet (ckan.BaseURL ++ "/action/" ++ "group_show" ++ "?" ++ ("id=" ++ id))]) ∧
    ((ckan.GetTagList env sort limit).log.filter Event.isRequest
      = [.httpGet (ckan.BaseURL ++ "/action/" ++ "tag_list" ++ "?" ++
          (setSearchParams [] sort limit).Encode)]) ∧
    ((ckan.GetTagMetadata env id).log.filter Event.isRequest
      = [.httpGet (ckan.BaseURL ++ "/action/" ++ "tag_show" ++ "?" ++ ("id=" ++ id))]) ∧
    ((ckan.RecentlyChangedPackagesActivityList env).log.filter Event.isRequest
      = [.httpGet (ckan.BaseURL ++ "/api/3/action/recently_changed_packages_activity_list")]) ∧
    (∀ host, ((NewClient (host ++ "/api/3")).RecentlyChangedPackagesActivityList env).log.filter
        Event.isRequest
      = [.httpGet (host ++ "/api/3" ++
          "/api/3/action/recently_changed_packages_activity_list")]) := by
  refine ⟨?_, ?_, ?_, ?_, ?_, ?_, ?_, ?_, ?_, ?_, ?_⟩
  · have hurl : ckan.BaseURL ++ "/action/" ++ "package_search" ++ "?" ++
        (setSearchParams query sort limit).Encode
        = ckan.BaseURL ++ "/action/package_search?" ++
            (setSearchParams query sort limit).Encode := by
      apply String.ext
      simp [String.data_append]
    rw [hurl]
    unfold Client.SearchPackages
    simp only []
    repeat' split
    all_goals simp [Event.isRequest]
  · have hurl : ckan.BaseURL ++ "/action/" ++ "resource_search" ++ "?" ++
        (setSearchParams query sort limit).Encode
        = ckan.BaseURL ++ "/action/resource_search?" ++
            (setSearchParams query sort limit).Encode := by
      apply String.ext
      simp [String.data_append]
    rw [hurl]
    unfold Client.SearchResources
    simp only []
    repeat' split
    all_goals simp [Event.isRequest]
  · have hurl : ckan.BaseURL ++ "/action/" ++ "package_list" ++ "?" ++
        (setSearchParams [] sort limit).Encode
        = ckan.BaseURL ++ "/action/package_list?" ++ (setSearchParams [] sort limit).Encode := by
      apply String.ext
      simp [String.data_append]
    rw [hurl]
    unfold Client.GetPackageList
    simp only []
    repeat' split
    all_goals simp [Event.isRequest]
  · have hurl : ckan.BaseURL ++ "/action/" ++ "package_show" ++ "?" ++ ("id=" ++ id)
        = ckan.BaseURL ++ "/action/package_show?id=" ++ id := by
      apply String.ext
      simp [String.data_append]
    rw [hurl]
    unfold Client.GetPackageMetadata
    simp only []
    repeat' split
    all_goals simp [Event.isRequest]
  · have hurl : ckan.BaseURL ++ "/action/" ++ "resource_show" = ckan.BaseURL ++
        "/action/resource_show" := by
      simp [String.append_assoc]
    rw [hurl]
    unfold Client.GetResourceMetadata
    simp only []
    rw [Marshal_eq [("id", id)]]
    simp only []
    repeat' split
    all_goals simp [Event.isRequest]
  · have hurl : ckan.BaseURL ++ "/action/" ++ "group_list" ++ "?" ++
        (setSearchParams [] sort limit).Encode
        = ckan.BaseURL ++ "/action/group_list?" ++ (setSearchParams [] sort limit).Encode := by
      apply String.ext
      simp [String.data_append]
    rw [hurl]
    unfold Client.GetGroupList
    simp only []
    repeat' split
    all_goals simp [Event.isRequest]
  · have hurl : ckan.BaseURL ++ "/action/" ++ "group_show" ++ "?" ++ ("id=" ++ id)
        = ckan.BaseURL ++ "/action/group_show?id=" ++ id := by
      apply String.ext
      simp [String.data_append]
    rw [hurl]
    unfold Client.GetGroupMetadata
    simp only []
    repeat' split
    all_goals simp [Event.isRequest]
  · have hurl : ckan.BaseURL ++ "/action/" ++ "tag_list" ++ "?" ++
        (setSearchParams [] sort limit).Encode
        = ckan.BaseURL ++ "/action/tag_list?" ++ (setSearchParams [] sort limit).Encode := by
      apply String.ext
      simp [String.data_append]
    rw [hurl]
    unfold Client.GetTagList
    simp only []
    repeat' split
    all_goals simp [Event.isRequest]
  · have hurl : ckan.BaseURL ++ "/action/" ++ "tag_show" ++ "?" ++ ("id=" ++ id)
        = ckan.BaseURL ++ "/action/tag_show?id=" ++ id := by
      apply String.ext
      simp [String.data_append]
    rw [hurl]
    unfold Client.GetTagMetadata
    simp only []
    repeat' split
    all_goals simp [Event.isRequest]
  · unfold Client.RecentlyChangedPackagesActivityList
    simp only []
    repeat' split
    all_goals simp [Event.isRequest]
  · intro host
    unfold Client.RecentlyChangedPackagesActivityList NewClient
    simp only []
    repeat' split
    all_goals simp [Event.isRequest]

/-! ## Worked examples of the error-handling claims -/

/-- Witness for C1: against a server answering 200 with an envelope whose success flag
is false, SearchPackages returns the failure message followed by the body, and the
zero value. -/
theorem success_false_is_error_witness :
    (Client.SearchPackages ⟨"http://ckan.example"⟩ envSuccessFalse [("a", "b")] "" 0).err
      = some ("Failed to search packages: " ++
          "\x7b\x22help\x22:\x22x\x22,\x22success\x22:false,\x22result\x22:\x7b\x7d\x7d") ∧
    (Client.SearchPackages ⟨"http://ckan.example"⟩ envSuccessFalse [("a", "b")] "" 0).value
      = {} :=
  (success_false_is_error ⟨"http://ckan.example"⟩ envSuccessFalse [("a", "b")] "" 0 "p").1
    "\x7b\x22help\x22:\x22x\x22,\x22success\x22:false,\x22result\x22:\x7b\x7d\x7d" none
    ⟨_, _, rfl, rfl, rfl, rfl, rfl⟩

/-- Witness for C2: against a server answering 500, whose body every decoder would
accept as a successful envelope, SearchPackages returns an error and decodes nothing. -/
theorem non_2xx_is_error_without_decoding_witness :
    (Client.SearchPackages ⟨"http://ckan.example"⟩ env500 [("a", "b")] "" 0).err ≠ none ∧
    (Client.SearchPackages ⟨"http://ckan.example"⟩ env500 [("a", "b")] "" 0).log.filter
      Event.isUnmarshal = [] :=
  (non_2xx_is_error_without_decoding ⟨"http://ckan.example"⟩ env500 [("a", "b")] "" 0 "p").1
    ⟨_, rfl, Or.inr (by decide)⟩

/-- Witness for C10: a failing GetPackageMetadata returns the zero value, and a
succeeding one returns an envelope with Success = true. -/
theorem no_partial_success_witness :
    (Client.GetPackageMetadata ⟨"http://ckan.example"⟩ env500 "p").value = {} ∧
    (Client.GetPackageMetadata ⟨"http://ckan.example"⟩ envTwoResources "p").value.Success
      = true := by
  have hfail := no_partial_success ⟨"http://ckan.example"⟩ env500 [] "" 0 "p"
  have hok := no_partial_success ⟨"http://ckan.example"⟩ envTwoResources [] "" 0 "p"
  obtain ⟨-, -, -, -, hzero, -⟩ := hfail
  obtain ⟨-, -, -, -, -, -, -, -, -, -, -, -, -, -, -, -, hdecoded, -⟩ := hok
  exact ⟨hzero (by decide), (hdecoded rfl).1⟩

/-! ## Worked examples of the encoders -/

/-- The query string of a search with one term, a sort expression and a negative
limit: keys sorted, both sides query-escaped. -/
theorem setSearchParams_Encode_example :
    (setSearchParams [("title", "water quality")] "metadata_modified desc" (-5)).Encode
      = "q=title%3Awater+quality&rows=-5&sort=metadata_modified+desc" := by
  decide

/-- Two query terms are joined with "+", which the encoding escapes as %2B. -/
theorem setSearchParams_two_terms_example :
    setSearchParams [("a", "b"), ("c", "d")] "" 0 = [("q", ["a:b+c:d"])] ∧
    (setSearchParams [("a", "b"), ("c", "d")] "" 0).Encode = "q=a%3Ab%2Bc%3Ad" := by
  decide

/-- The request body of GetResourceMetadata for the identifier r1. -/
theorem Marshal_example :
    Marshal [("id", "r1")] = ("\x7b\x22id\x22:\x22r1\x22\x7d", none) := by
  decide

end Ckan
